import Mathlib

/-!
# Verification of the kna-history archive application's core services

This file embeds, as executable Lean definitions, the service layer of the
archive-management application: the entity records (`Member`, `Activity`,
`Role`, `MediaItem`, `MediaAppearance`), the CRUD services
(`member_service.py`, `activity_service.py`, `role_service.py`,
`media_service.py`), the program-text parser
(`RoleService.bulk_create_from_text`), the media-finalization workflow
(`utils/file_utils.py`), and the activity-folder derivation of the
`activity.new` request handler.  The database session is modelled as an
explicit store (`DB`) of entity lists in insertion order; the filesystem is a
store (`FS`) of file and directory paths.  Theorems below settle the spec's
claims about these operations.
-/

namespace KNA

/-- Dates are abstract here; only equality and presence matter for the
properties verified in this file. -/
abbrev Date := Nat

/- ### Python string primitives used by the services -/

/-- Whitespace as recognised by Python's `str.strip()` / `str.split()`. -/
def isPySpace (c : Char) : Bool :=
  c = ' ' || c = '\t' || c = '\n' || c = '\r' || c = '\x0b' || c = '\x0c'

/-- Python `str.strip()` on a character list. -/
def stripChars (cs : List Char) : List Char :=
  ((cs.dropWhile isPySpace).reverse.dropWhile isPySpace).reverse

/-- Python `str.strip()`. -/
def pyStrip (s : String) : String := String.mk (stripChars s.data)

/-- Accumulator for `splitRuns`: `acc` holds the current run, reversed. -/
def splitRunsAux (p : Char → Bool) : List Char → List Char → List (List Char)
  | [], acc => if acc.isEmpty then [] else [acc.reverse]
  | c :: cs, acc =>
    if p c then splitRunsAux p cs (c :: acc)
    else if acc.isEmpty then splitRunsAux p cs [] else acc.reverse :: splitRunsAux p cs []

/-- Maximal runs of characters satisfying `p`; characters failing `p` are
dropped.  With `p c = !isPySpace c` this is Python's no-argument
`str.split()`; with `p = isSlugChar` it is the word-extraction step of
slugification. -/
def splitRuns (p : Char → Bool) (cs : List Char) : List (List Char) :=
  splitRunsAux p cs []

/-- Python's whitespace `str.split()` (no argument): non-empty tokens. -/
def pySplitWS (s : String) : List String :=
  (splitRuns (fun c => !isPySpace c) s.data).map String.mk

/-- Python `str.splitlines()` restricted to the terminators `\n`, `\r\n`,
`\r` (the only ones occurring in this application's inputs). -/
def splitLinesAux : List Char → List Char → List (List Char)
  | [], acc => if acc.isEmpty then [] else [acc.reverse]
  | '\r' :: '\n' :: rest, acc => acc.reverse :: splitLinesAux rest []
  | '\n' :: rest, acc => acc.reverse :: splitLinesAux rest []
  | '\r' :: rest, acc => acc.reverse :: splitLinesAux rest []
  | c :: rest, acc => splitLinesAux rest (c :: acc)

/-- Python `str.splitlines()`. -/
def splitLines (s : String) : List String :=
  (splitLinesAux s.data []).map String.mk

/-- Lower-casing (ASCII, as in the names stored by this application). -/
def lowerStr (s : String) : String := String.mk (s.data.map Char.toLower)

/-- Python's `sub in s` substring test. -/
def containsSub (s sub : String) : Bool := decide (sub.data <:+: s.data)

/-- SQL `column ILIKE '%pat%'`: case-insensitive substring match, as issued by
`Member.current_first_name.ilike(f"%{first_name}%")`. -/
def ilikeSub (col pat : String) : Bool := containsSub (lowerStr col) (lowerStr pat)

/-- Split at the first occurrence of `d` (a non-empty delimiter):
Python `s.split(d, 1)` when `d in s`. -/
def splitOnceChars (d : List Char) : List Char → Option (List Char × List Char)
  | [] => none
  | c :: rest =>
    if d <+: (c :: rest) then some ([], (c :: rest).drop d.length)
    else
      match splitOnceChars d rest with
      | some (pre, post) => some (c :: pre, post)
      | none => none

/-- Python `s.split(delim, 1)` for a delimiter known to occur in `s`
(`bulk_create_from_text` checks `delimiter in line` first; the fallback
`(s, "")` is unreachable there). -/
def pySplit1 (s delim : String) : String × String :=
  match splitOnceChars delim.data s.data with
  | some (pre, post) => (String.mk pre, String.mk post)
  | none => (s, "")

/-- Characters kept by slugification (ASCII letters and digits). -/
def isSlugChar (c : Char) : Bool := c.isAlpha || c.isDigit

/-- Python's `sep.join(...)` on character lists. -/
def joinSep (sep : Char) : List (List Char) → List Char
  | [] => []
  | [t] => t
  | t :: ts => t ++ sep :: joinSep sep ts

/-- Modelled from the spec: the repository slugifies names with the
third-party `slugify` library, which is not part of the source tree.  For the
ASCII inputs relevant to the claims it lowercases the input, extracts the
maximal alphanumeric runs, and joins them with single hyphens (no leading or
trailing hyphen). -/
def slugify (s : String) : String :=
  String.mk (joinSep '-' ((splitRuns isSlugChar s.data).map (fun t => t.map Char.toLower)))

/- ### Decimal representation (Python `str(int)` / f-string formatting) -/

/-- The ASCII digit for `d < 10`. -/
def digitChar (d : Nat) : Char := Char.ofNat (48 + d)

/-- Most-significant-first decimal digits of `n` (with `fuel ≥ n`). -/
def natDigitsAux : Nat → Nat → List Char
  | 0, _ => []
  | fuel + 1, n => if n = 0 then [] else natDigitsAux fuel (n / 10) ++ [digitChar (n % 10)]

/-- Python `str(n)` for a natural number (decimal). -/
def natRepr (n : Nat) : String :=
  if n = 0 then "0" else String.mk (natDigitsAux n n)

/-- Python `str(y)` for an integer. -/
def intRepr (y : Int) : String :=
  if y < 0 then "-" ++ natRepr y.natAbs else natRepr y.natAbs

/-- Numeric value of an ASCII digit. -/
def digitVal (c : Char) : Nat := c.toNat - 48

/-- Value of a most-significant-first digit list. -/
def digitsVal (cs : List Char) : Nat := cs.foldl (fun a c => 10 * a + digitVal c) 0

/- ### The append-counter-suffix loop

`MemberService.quick_create_member` and the `activity.new` handler share the
same uniquification idiom:

    base_id = id_; counter = 1
    while taken(id_): id_ = f"{base_id}-{counter}"; counter += 1
-/

/-- One faithful unrolling of the `while` loop; `fuel` bounds the number of
membership tests (the Python loop terminates because only finitely many
ids/folders are taken, see `uniqueSuffixGo_not_mem`). -/
def uniqueSuffixGo (taken : List String) (base : String) : Nat → String → Nat → String
  | 0, cur, _ => cur
  | fuel + 1, cur, counter =>
    if cur ∈ taken then
      uniqueSuffixGo taken base fuel (base ++ "-" ++ natRepr counter) (counter + 1)
    else cur

/-- The id/folder produced by the append-counter-suffix loop. -/
def uniqueSuffix (taken : List String) (base : String) : String :=
  uniqueSuffixGo taken base (taken.length + 1) base 1

/- ### `pathlib` stem / suffix on a bare file name -/

/-- `Path(name).stem` and `Path(name).suffix` for a bare file name: the
suffix is `.ext` for the last dot that is neither the first nor the last
character; otherwise the suffix is empty and the stem is the whole name. -/
def splitExtChars (cs : List Char) : List Char × List Char :=
  let after := (cs.reverse.takeWhile (fun c => c ≠ '.')).reverse
  if after.length < cs.length ∧ cs.length - after.length - 1 ≠ 0 ∧ after.length ≠ 0 then
    (cs.take (cs.length - after.length - 1), '.' :: after)
  else (cs, [])

/-- `Path(name).stem`. -/
def pathStem (s : String) : String := String.mk (splitExtChars s.data).1

/-- `Path(name).suffix`. -/
def pathSuffix (s : String) : String := String.mk (splitExtChars s.data).2

/-- `Path(a) / b`. -/
def joinPath (a b : String) : String := a ++ "/" ++ b

/-- `str(p.relative_to(base))` for a path `p` lying under `base`. -/
def relativeTo (base p : String) : String :=
  String.mk (p.data.drop (base.data.length + 1))

/- ### Entity records (content_db/models.py) -/

structure Member where
  id_member : String
  /- `current_first_name` / `current_last_name` are NOT NULL columns in the
     schema; they are `Option` here because the UPDATE statement issued by
     `MemberService.update_member` writes NULL into every column the caller
     did not provide (see claim C1). -/
  current_first_name : Option String
  current_last_name : Option String
  birth_date : Option Date
  gdpr_permission : Option Int
  notes : Option String
deriving DecidableEq

structure Activity where
  id_activity : String
  title : String
  type : String
  start_date : Option Date
  end_date : Option Date
  year : Option Int
  author : Option String
  director : Option String
  folder : Option String
  description : Option String
deriving DecidableEq

structure Role where
  id_role : Nat
  id_activity : String
  id_member : String
  role_name : Option String
  character_name : Option String
  role_type : Option String
  notes : Option String
deriving DecidableEq

structure MediaType where
  type_code : String
  description : Option String
deriving DecidableEq

structure MediaItem where
  id_media : Nat
  id_activity : String
  filename : String
  type_media : String
  file_extension : Option String
  storage_path : Option String
  capture_date : Option Date
  caption : Option String
  credit : Option String
  display_order : Int
deriving DecidableEq

structure MediaAppearance where
  id_appearance : Nat
  id_media : Nat
  id_member : String
  id_role : Option Nat
  /- denormalised back-reference to the owning activity (NOT NULL in the
     schema); `MediaService.create_media_appearance` never assigns it, so the
     constructed record carries `none`. -/
  id_activity : Option String
  appearance_context : Option String
  display_order : Int
  notes : Option String
deriving DecidableEq

/-- The relational store behind the session: entity lists in insertion order
(the row order scanned by the services' unordered `first()` queries), plus
the auto-increment counters. -/
structure DB where
  members : List Member
  activities : List Activity
  roles : List Role
  mediaTypes : List MediaType
  mediaItems : List MediaItem
  appearances : List MediaAppearance
  nextRoleId : Nat
  nextAppearanceId : Nat
deriving DecidableEq

def emptyDB : DB := ⟨[], [], [], [], [], [], 1, 1⟩

deriving instance DecidableEq for Except

/-- Python's `s.strip() if s else None` idiom on an optional string. -/
def stripOrNone (s : Option String) : Option String :=
  match s with
  | some s => if s = "" then none else some (pyStrip s)
  | none => none

/- ### MemberService (content_db/services/member_service.py) -/

namespace MemberService

/-- `MemberService.create_member`: raises `ValueError` when the id or either
name is blank; strips the identifying strings; appends the row. -/
def create_member (db : DB) (id_member current_first_name current_last_name : String)
    (birth_date : Option Date) (gdpr_permission : Int) (notes : Option String) :
    Except String (Member × DB) :=
  if id_member = "" ∨ current_first_name = "" ∨ current_last_name = "" then
    .error "id_member, first_name and last_name are required"
  else
    let m : Member :=
      { id_member := pyStrip id_member
        current_first_name := some (pyStrip current_first_name)
        current_last_name := some (pyStrip current_last_name)
        birth_date
        gdpr_permission := some gdpr_permission
        notes }
    .ok (m, { db with members := db.members ++ [m] })

/-- `MemberService.quick_create_member`: derives the id `slugify(f"{last}-{first}")`
when none (or an empty one) is supplied, uniquified by the append-counter
`while` loop against the existing member ids. -/
def quick_create_member (db : DB) (first_name last_name : String)
    (id_lid : Option String) : Except String (Member × DB) :=
  let genId := uniqueSuffix (db.members.map Member.id_member)
    (slugify (last_name ++ "-" ++ first_name))
  let id_ :=
    match id_lid with
    | some i => if i = "" then genId else i
    | none => genId
  create_member db id_ first_name last_name none 1 none

/-- `MemberService.update_member`: the source issues a single
`update(Member).values(...)` statement listing *every* column, so columns the
caller did not provide are written as NULL (this is what claim C1 is about).
Returns the updated row, or `none` when the id matched no row. -/
def update_member (db : DB) (id_member : String)
    (current_first_name current_last_name : Option String)
    (birth_date : Option Date) (gdpr_permission : Option Int)
    (notes : Option String) : Option Member × DB :=
  let newVals := fun (m : Member) =>
    { m with
      current_first_name := stripOrNone current_first_name
      current_last_name := stripOrNone current_last_name
      birth_date := birth_date
      gdpr_permission := gdpr_permission
      notes := notes }
  ((db.members.find? (fun m => m.id_member == id_member)).map newVals,
   { db with members := db.members.map (fun m =>
      if m.id_member == id_member then newVals m else m) })

end MemberService

/- ### RoleService (content_db/services/role_service.py) -/

namespace RoleService

/-- `RoleService.create_role`: no referential checks; appends the row with
the next auto-increment id. -/
def create_role (db : DB) (id_activity id_member : String)
    (role_name character_name role_type notes : Option String) : Role × DB :=
  let r : Role :=
    { id_role := db.nextRoleId, id_activity, id_member,
      role_name, character_name, role_type, notes }
  (r, { db with roles := db.roles ++ [r], nextRoleId := db.nextRoleId + 1 })

/-- `RoleService.update_role` (the ORM-attribute variant): loads the row,
assigns only the provided fields (no stripping), and returns the row — also
when no field at all was provided. -/
def update_role (db : DB) (id_role : Nat)
    (role_name character_name role_type notes : Option String) :
    Option Role × DB :=
  match db.roles.find? (fun r => r.id_role == id_role) with
  | none => (none, db)
  | some role =>
    let role' : Role :=
      { role with
        role_name := role_name.or role.role_name
        character_name := character_name.or role.character_name
        role_type := role_type.or role.role_type
        notes := notes.or role.notes }
    (some role', { db with roles := db.roles.map (fun r =>
      if r.id_role == id_role then role' else r) })

/-- The first/last split of `find_or_create_member_by_name`: the last
whitespace token is the last name and the remainder the first name; a name
with fewer than two tokens is first-name-only (note that the source uses the
*unstripped* `full_name` in that branch). -/
def nameSplit (full_name : String) : String × String :=
  let parts := pySplitWS (pyStrip full_name)
  if 2 ≤ parts.length then
    (String.mk (joinSep ' ' (parts.dropLast.map String.data)), parts.getLastD "")
  else (full_name, "")

/-- The fuzzy member search of `find_or_create_member_by_name`:
case-insensitive substring match on both names (SQL `ILIKE '%…%'`; a NULL
column never matches). -/
def memberMatches (first_name last_name : String) (m : Member) : Bool :=
  (match m.current_first_name with | some s => ilikeSub s first_name | none => false) &&
  (match m.current_last_name with | some s => ilikeSub s last_name | none => false)

/-- `RoleService.find_or_create_member_by_name`. -/
def find_or_create_member_by_name (db : DB) (full_name : String) :
    Except String (Member × DB) :=
  let (first_name, last_name) := nameSplit full_name
  match db.members.find? (memberMatches first_name last_name) with
  | some m => .ok (m, db)
  | none => MemberService.quick_create_member db first_name last_name none

/-- Error/skip messages of `bulk_create_from_text` (the "–" in the
duplicate message is a literal en-dash in the source). -/
def noDelimMsg (line : String) : String := "Skipped (no delimiter): " ++ line

def emptyFieldMsg (line : String) : String := "Skipped (empty field): " ++ line

def alreadyMsg (role_name actor_name : String) : String :=
  "Already exists: " ++ role_name ++ " – " ++ actor_name

def lineErrorMsg (line e : String) : String :=
  "Error processing '" ++ line ++ "': " ++ e

/-- The duplicate-role test of `bulk_create_from_text`: exact key
`(activity, member, role name)`. -/
def roleKeyMatches (id_activity id_member role_name : String) (r : Role) : Bool :=
  r.id_activity == id_activity && r.id_member == id_member &&
    r.role_name == some role_name

/-- One iteration of the `for` loop of `bulk_create_from_text` over an
already stripped, non-blank line; the state is `(created, errors, db)`.  The
`match` on the `Except` result of member resolution is the `try/except` of
the source: a `ValueError` raised while resolving the member is recorded as
a per-line error and the loop continues. -/
def processLine (id_activity delimiter : String) :
    Nat × List String × DB → String → Nat × List String × DB
  | (created, errors, db), line =>
    if ¬ containsSub line delimiter then (created, errors ++ [noDelimMsg line], db)
    else
      let parts := pySplit1 line delimiter
      let role_name := pyStrip parts.1
      let actor_name := pyStrip parts.2
      if role_name = "" ∨ actor_name = "" then
        (created, errors ++ [emptyFieldMsg line], db)
      else
        match find_or_create_member_by_name db actor_name with
        | .error e => (created, errors ++ [lineErrorMsg line e], db)
        | .ok (member, db1) =>
          if (db1.roles.find? (roleKeyMatches id_activity member.id_member role_name)).isSome then
            (created, errors ++ [alreadyMsg role_name actor_name], db1)
          else
            let (_, db2) := create_role db1 id_activity member.id_member
              (some role_name) none none none
            (created + 1, errors, db2)

/-- The non-blank stripped lines of the program text. -/
def bulkLines (program_text : String) : List String :=
  ((splitLines program_text).map pyStrip).filter (fun l => l ≠ "")

/-- Does a message start with the `Already exists: ` prefix used by the
duplicate branch? -/
def isAlreadyMsg (m : String) : Bool := decide ("Already exists: ".data <+: m.data)

/-- Does a message start with the `Error processing '` prefix used by the
caught-exception branch? -/
def isErrorMsg (m : String) : Bool := decide ("Error processing '".data <+: m.data)

/-- The message a line of re-run program text produces when every role of the
first run already exists: the same skip message for unparseable lines, and
the duplicate message for parseable ones (see the C5 theorems). -/
def rerunMsg (delimiter line : String) : String :=
  if ¬ containsSub line delimiter then noDelimMsg line
  else
    let role_name := pyStrip (pySplit1 line delimiter).1
    let actor_name := pyStrip (pySplit1 line delimiter).2
    if role_name = "" ∨ actor_name = "" then emptyFieldMsg line
    else alreadyMsg role_name actor_name

/-- `RoleService.bulk_create_from_text`: returns
`(created count, error messages, session state)`. -/
def bulk_create_from_text (db : DB) (id_activity program_text delimiter : String) :
    Nat × List String × DB :=
  (bulkLines program_text).foldl (processLine id_activity delimiter) (0, [], db)

end RoleService

/- ### ActivityService (content_db/services/activity_service.py) -/

namespace ActivityService

/-- `ActivityService.update_activity`: builds the `values` dict from the
provided arguments only; when the dict is empty it returns `None` without
issuing any statement; otherwise it issues one UPDATE over the provided
columns and returns the updated row (or `none` when the id matched no row). -/
def update_activity (db : DB) (id_activity : String)
    (title type_ : Option String) (start_date end_date : Option Date)
    (year : Option Int) (author director folder description : Option String) :
    Option Activity × DB :=
  if title = none ∧ type_ = none ∧ start_date = none ∧ end_date = none ∧
     year = none ∧ author = none ∧ director = none ∧ folder = none ∧
     description = none then
    (none, db)
  else
    let apply := fun (a : Activity) =>
      { a with
        title := (title.map pyStrip).getD a.title
        type := (type_.map pyStrip).getD a.type
        start_date := start_date.or a.start_date
        end_date := end_date.or a.end_date
        year := year.or a.year
        author := match author with | some s => stripOrNone (some s) | none => a.author
        director := match director with | some s => stripOrNone (some s) | none => a.director
        folder := match folder with | some s => stripOrNone (some s) | none => a.folder
        description := description.or a.description }
    ((db.activities.find? (fun a => a.id_activity == id_activity)).map apply,
     { db with activities := db.activities.map (fun a =>
        if a.id_activity == id_activity then apply a else a) })

/-- `ActivityService.update_role` (the `values`-dict variant): `None` and no
write when no field is provided. -/
def update_role (db : DB) (id_role : Nat)
    (role_name character_name role_type notes : Option String) :
    Option Role × DB :=
  if role_name = none ∧ character_name = none ∧ role_type = none ∧ notes = none then
    (none, db)
  else
    let apply := fun (r : Role) =>
      { r with
        role_name := match role_name with | some s => some (pyStrip s) | none => r.role_name
        character_name := match character_name with
          | some s => stripOrNone (some s) | none => r.character_name
        role_type := match role_type with
          | some s => stripOrNone (some s) | none => r.role_type
        notes := notes.or r.notes }
    ((db.roles.find? (fun r => r.id_role == id_role)).map apply,
     { db with roles := db.roles.map (fun r =>
        if r.id_role == id_role then apply r else r) })

end ActivityService

/- ### MediaService (content_db/services/media_service.py) -/

namespace MediaService

/-- Python `str.capitalize()`. -/
def pyCapitalize (s : String) : String :=
  match s.data with
  | [] => ""
  | c :: cs => String.mk (c.toUpper :: cs.map Char.toLower)

/-- `MediaService.create_or_get_media_type`. -/
def create_or_get_media_type (db : DB) (type_code : String)
    (description : Option String) : MediaType × DB :=
  let tc := lowerStr (pyStrip type_code)
  match db.mediaTypes.find? (fun t => t.type_code == tc) with
  | some t => (t, db)
  | none =>
    let t : MediaType :=
      { type_code := tc
        description := some (match description with
          | some d => if d = "" then pyCapitalize tc else d
          | none => pyCapitalize tc) }
    (t, { db with mediaTypes := db.mediaTypes ++ [t] })

/-- `MediaService.update_media_item`: `values`-dict partial update; when the
media type is among the provided fields the lookup row is ensured first. -/
def update_media_item (db : DB) (id_media : Nat)
    (filename type_media file_extension storage_path : Option String)
    (capture_date : Option Date) (caption credit : Option String)
    (display_order : Option Int) : Option MediaItem × DB :=
  if filename = none ∧ type_media = none ∧ file_extension = none ∧
     storage_path = none ∧ capture_date = none ∧ caption = none ∧
     credit = none ∧ display_order = none then
    (none, db)
  else
    let db1 := match type_media with
      | some t => (create_or_get_media_type db t none).2
      | none => db
    let apply := fun (m : MediaItem) =>
      { m with
        filename := (filename.map pyStrip).getD m.filename
        type_media := (type_media.map (fun s => lowerStr (pyStrip s))).getD m.type_media
        file_extension := match file_extension with
          | some s => if s = "" then none else some (lowerStr (pyStrip s))
          | none => m.file_extension
        storage_path := storage_path.or m.storage_path
        capture_date := capture_date.or m.capture_date
        caption := caption.or m.caption
        credit := credit.or m.credit
        display_order := display_order.getD m.display_order }
    ((db1.mediaItems.find? (fun m => m.id_media == id_media)).map apply,
     { db1 with mediaItems := db1.mediaItems.map (fun m =>
        if m.id_media == id_media then apply m else m) })

/-- `MediaService.create_media_appearance`: validates that the media item and
the member exist and — for a *truthy* role id, i.e. neither `None` nor `0` —
that the role exists and belongs to the media item's activity; any violation
raises `ValueError` and nothing is written.  When validation passes, the
source constructs the row without the `id_activity` column and calls
`session.flush()`; the schema declares `media_appearance.id_activity` as
NOT NULL, so the INSERT violates that constraint and flush raises
`IntegrityError` — the row is never persisted. -/
def create_media_appearance (db : DB) (id_media : Nat) (id_member : String)
    (id_role : Option Nat) (appearance_context : Option String)
    (display_order : Int) (notes : Option String) :
    Except String MediaAppearance × DB :=
  match db.mediaItems.find? (fun m => m.id_media == id_media) with
  | none => (.error ("MediaItem " ++ natRepr id_media ++ " not found"), db)
  | some media =>
    match db.members.find? (fun m => m.id_member == id_member) with
    | none => (.error ("Member " ++ id_member ++ " not found"), db)
    | some _ =>
      let roleError : Option String :=
        match id_role with
        | none => none
        | some rid =>
          if rid = 0 then none  -- `if id_role:` — Python truthiness skips 0
          else
            match db.roles.find? (fun r => r.id_role == rid) with
            | none => some ("Role " ++ natRepr rid ++ " not found")
            | some role =>
              if role.id_activity ≠ media.id_activity then
                some "Role does not belong to the same activity as the media item"
              else none
      match roleError with
      | some e => (.error e, db)
      | none =>
        let app : MediaAppearance :=
          { id_appearance := db.nextAppearanceId, id_media, id_member, id_role,
            id_activity := none, appearance_context, display_order, notes }
        -- session.flush(): the INSERT must satisfy the schema's NOT NULL
        -- constraint on media_appearance.id_activity, which the constructor
        -- above never sets — SQLite rejects the row and flush raises.
        match app.id_activity with
        | none =>
          (.error
            "IntegrityError: NOT NULL constraint failed: media_appearance.id_activity",
           db)
        | some _ =>
          (.ok app, { db with appearances := db.appearances ++ [app],
                              nextAppearanceId := db.nextAppearanceId + 1 })

/-- `MediaService.update_media_appearance`: `values`-dict partial update;
note that `id_role` enters the dict only under `id_role is not None`, so —
despite the comment in the source — a role link can never be cleared. -/
def update_media_appearance (db : DB) (id_appearance : Nat)
    (id_role : Option Nat) (appearance_context : Option String)
    (display_order : Option Int) (notes : Option String) :
    Option MediaAppearance × DB :=
  if id_role = none ∧ appearance_context = none ∧ display_order = none ∧
     notes = none then
    (none, db)
  else
    let apply := fun (a : MediaAppearance) =>
      { a with
        id_role := match id_role with | some r => some r | none => a.id_role
        appearance_context := appearance_context.or a.appearance_context
        display_order := display_order.getD a.display_order
        notes := notes.or a.notes }
    ((db.appearances.find? (fun a => a.id_appearance == id_appearance)).map apply,
     { db with appearances := db.appearances.map (fun a =>
        if a.id_appearance == id_appearance then apply a else a) })

end MediaService

/- ### Media finalization (utils/file_utils.py) -/

/-- The filesystem seen by `move_and_rename_media`: existing file paths and
directory paths, as slash-joined strings.  `mkdir(parents=True)` is collapsed
to the directory actually targeted (ancestor directories are not tracked;
only the targeted directory's presence is observable here). -/
structure FS where
  files : List String
  dirs : List String
deriving DecidableEq

/-- `Path.mkdir(..., exist_ok=True)`. -/
def FS.mkdirP (fs : FS) (d : String) : FS :=
  if d ∈ fs.dirs then fs else { fs with dirs := fs.dirs ++ [d] }

/-- `Path.rename`. -/
def FS.rename (fs : FS) (src dst : String) : FS :=
  { fs with files := dst :: fs.files.erase src }

/-- `move_and_rename_media` from `utils/file_utils.py`.  `activities` stands
for the relationship lookup `media_item.activity`; the returned `MediaItem`
is the session's record after the call (unchanged unless the move
succeeded).  Note the source calls `target_dir.mkdir(...)` *before* checking
that the source file exists, so the failure paths after that point have
already created the destination directory. -/
def move_and_rename_media (fs : FS) (activities : List Activity)
    (media_item : MediaItem) (base_resources_dir : String)
    (overwrite : Bool) : Bool × FS × MediaItem :=
  if media_item.filename = "" then (false, fs, media_item)
  else
    match activities.find? (fun a => a.id_activity == media_item.id_activity) with
    | none => (false, fs, media_item)
    | some activity =>
      match activity.folder with
      | none => (false, fs, media_item)
      | some folder =>
        if folder = "" then (false, fs, media_item)
        else
          let type_subdir :=
            if media_item.type_media = "" then "overig" else media_item.type_media
          let clean_name := slugify (match media_item.caption with
            | some c => if c = "" then pathStem media_item.filename else c
            | none => pathStem media_item.filename)
          let ext :=
            if lowerStr (pathSuffix media_item.filename) = "" then ".jpg"
            else lowerStr (pathSuffix media_item.filename)
          let new_filename := clean_name ++ ext
          let target_dir := joinPath (joinPath base_resources_dir folder) type_subdir
          let fs1 := fs.mkdirP target_dir
          let target_path := joinPath target_dir new_filename
          let source_path := joinPath "uploads" media_item.filename
          if source_path ∉ fs1.files then (false, fs1, media_item)
          else if target_path ∈ fs1.files ∧ ¬ overwrite then (false, fs1, media_item)
          else
            let fs2 := fs1.rename source_path target_path
            let thumb_source := joinPath "uploads/thumbnails" media_item.filename
            let fs3 :=
              if thumb_source ∈ fs2.files then
                (fs2.mkdirP (joinPath target_dir "thumbnails")).rename thumb_source
                  (joinPath (joinPath target_dir "thumbnails") new_filename)
              else fs2
            (true, fs3,
             { media_item with
               filename := new_filename
               storage_path := some (relativeTo base_resources_dir target_path) })

/- ### The `activity.new` request handler (blueprints/activity.py) -/

namespace ActivityBlueprint

/-- Python `f"{y}-…"` over the optional form year (`f"{None}"` is `"None"`). -/
def yearStr (y : Option Int) : String :=
  match y with
  | some y => intRepr y
  | none => "None"

/-- The folder derivation of the `activity.new` handler: when the form's
folder field is blank the folder is `f"{year}-{slugify(title)}"` (with
`title` the already stripped activity title), else the slugified user input;
the result is then uniquified with the append-counter `while` loop against
the folders of all existing activities. -/
def newFolder (existingFolders : List String) (title : String)
    (year : Option Int) (folderData : Option String) : String :=
  let base :=
    match folderData with
    | some f =>
      if pyStrip f = "" then yearStr year ++ "-" ++ slugify title
      else slugify (pyStrip f)
    | none => yearStr year ++ "-" ++ slugify title
  uniqueSuffix existingFolders base

end ActivityBlueprint

/-! ## Theorems -/

/- ### Path lemmas -/

theorem String.data_append' (s t : String) : (s ++ t).data = s.data ++ t.data := rfl

theorem String.mk_data (s : String) : String.mk s.data = s := rfl

theorem joinPath_assoc (a b c : String) :
    joinPath (joinPath a b) c = joinPath a (joinPath b c) := by
  show a ++ "/" ++ b ++ "/" ++ c = a ++ "/" ++ (b ++ "/" ++ c)
  cases a; cases b; cases c
  apply congrArg String.mk
  simp [String.data_append']

theorem relativeTo_joinPath (a r : String) : relativeTo a (joinPath a r) = r := by
  unfold relativeTo joinPath
  have h : (a ++ "/" ++ r).data = (a.data ++ ['/']) ++ r.data := by
    simp [String.data_append']
  rw [h]
  have hlen : a.data.length + 1 = (a.data ++ ['/']).length := by simp
  rw [hlen, List.drop_left, String.mk_data]

theorem FS.mkdirP_files (fs : FS) (d : String) : (fs.mkdirP d).files = fs.files := by
  unfold FS.mkdirP
  split <;> rfl

/- ### Character-class lemmas -/

theorem toNat_of_val_le {m : UInt32} {c : Char} (h : m ≤ c.val) : m.toNat ≤ c.toNat := h

theorem toNat_of_le_val {m : UInt32} {c : Char} (h : c.val ≤ m) : c.toNat ≤ m.toNat := h

theorem toNat_ofNat_of_valid (n : Nat) (h : n < 55296) : (Char.ofNat n).toNat = n := by
  unfold Char.ofNat
  rw [dif_pos (Or.inl h)]
  simp [Char.ofNatAux, Char.toNat, UInt32.toNat]

theorem isPySpace_eq_false_of_toNat (c : Char) (h : 33 ≤ c.toNat) : isPySpace c = false := by
  have k : ∀ d : Char, c.toNat ≠ d.toNat → decide (c = d) = false := fun d hne =>
    decide_eq_false (fun heq => hne (congrArg Char.toNat heq))
  unfold isPySpace
  rw [k ' ' (by intro he; rw [(by decide : (' ').toNat = 32)] at he; omega)]
  rw [k '\t' (by intro he; rw [(by decide : ('\t').toNat = 9)] at he; omega)]
  rw [k '\n' (by intro he; rw [(by decide : ('\n').toNat = 10)] at he; omega)]
  rw [k '\r' (by intro he; rw [(by decide : ('\r').toNat = 13)] at he; omega)]
  rw [k '\x0b' (by intro he; rw [(by decide : ('\x0b').toNat = 11)] at he; omega)]
  rw [k '\x0c' (by intro he; rw [(by decide : ('\x0c').toNat = 12)] at he; omega)]
  rfl

theorem isPySpace_toLower_eq_false (c : Char) (h : isSlugChar c = true) :
    isPySpace (Char.toLower c) = false := by
  simp only [isSlugChar, Bool.or_eq_true] at h
  have hb : (65 ≤ c.toNat ∧ c.toNat ≤ 90) ∨
      (97 ≤ c.toNat ∧ c.toNat ≤ 122) ∨ (48 ≤ c.toNat ∧ c.toNat ≤ 57) := by
    rcases h with hab | hd
    · simp only [Char.isAlpha, Bool.or_eq_true] at hab
      rcases hab with hu | hl
      · simp only [Char.isUpper, Bool.and_eq_true, decide_eq_true_eq] at hu
        refine Or.inl ⟨?_, ?_⟩
        · have := toNat_of_val_le hu.1
          rwa [(by decide : (65 : UInt32).toNat = 65)] at this
        · have := toNat_of_le_val hu.2
          rwa [(by decide : (90 : UInt32).toNat = 90)] at this
      · simp only [Char.isLower, Bool.and_eq_true, decide_eq_true_eq] at hl
        refine Or.inr (Or.inl ⟨?_, ?_⟩)
        · have := toNat_of_val_le hl.1
          rwa [(by decide : (97 : UInt32).toNat = 97)] at this
        · have := toNat_of_le_val hl.2
          rwa [(by decide : (122 : UInt32).toNat = 122)] at this
    · simp only [Char.isDigit, Bool.and_eq_true, decide_eq_true_eq] at hd
      refine Or.inr (Or.inr ⟨?_, ?_⟩)
      · have := toNat_of_val_le hd.1
        rwa [(by decide : (48 : UInt32).toNat = 48)] at this
      · have := toNat_of_le_val hd.2
        rwa [(by decide : (57 : UInt32).toNat = 57)] at this
  unfold Char.toLower
  rcases hb with h1 | h1 | h1
  · rw [if_pos ⟨h1.1, h1.2⟩]
    apply isPySpace_eq_false_of_toNat
    rw [toNat_ofNat_of_valid (c.toNat + 32) (by omega)]
    omega
  · rw [if_neg (by omega)]
    exact isPySpace_eq_false_of_toNat c (by omega)
  · rw [if_neg (by omega)]
    exact isPySpace_eq_false_of_toNat c (by omega)

theorem isPySpace_digitChar_eq_false (d : Nat) (h : d < 10) :
    isPySpace (digitChar d) = false := by
  apply isPySpace_eq_false_of_toNat
  unfold digitChar
  rw [toNat_ofNat_of_valid (48 + d) (by omega)]
  omega

/- ### Decimal representation: round-trip and injectivity -/

theorem digitVal_digitChar (d : Nat) (h : d < 10) : digitVal (digitChar d) = d := by
  unfold digitVal digitChar
  rw [toNat_ofNat_of_valid (48 + d) (by omega)]
  omega

theorem digitsVal_append_singleton (l : List Char) (c : Char) :
    digitsVal (l ++ [c]) = 10 * digitsVal l + digitVal c := by
  unfold digitsVal
  rw [List.foldl_append]
  rfl

theorem digitsVal_natDigitsAux (fuel : Nat) :
    ∀ n, n ≤ fuel → digitsVal (natDigitsAux fuel n) = n := by
  induction fuel with
  | zero =>
    intro n hn
    interval_cases n
    rfl
  | succ fuel ih =>
    intro n hn
    unfold natDigitsAux
    by_cases h0 : n = 0
    · rw [if_pos h0, h0]
      rfl
    · rw [if_neg h0, digitsVal_append_singleton,
        ih (n / 10) (by omega), digitVal_digitChar _ (Nat.mod_lt n (by omega))]
      omega

theorem digitsVal_natRepr (n : Nat) : digitsVal (natRepr n).data = n := by
  unfold natRepr
  by_cases h0 : n = 0
  · rw [if_pos h0, h0]
    decide
  · rw [if_neg h0]
    exact digitsVal_natDigitsAux n n (Nat.le_refl n)

theorem natRepr_injective : Function.Injective natRepr := by
  intro a b h
  have := congrArg (fun s => digitsVal s.data) h
  simpa [digitsVal_natRepr] using this

theorem suffixed_injective (base : String) :
    Function.Injective (fun k : Nat => base ++ "-" ++ natRepr k) := by
  intro a b h
  have hd := congrArg String.data h
  simp only [String.data_append'] at hd
  have := List.append_cancel_left hd
  exact natRepr_injective (congrArg String.mk this)

/- ### Append-counter-suffix loop: correctness -/

theorem uniqueSuffixGo_mem (taken : List String) (base : String) :
    ∀ fuel cur counter, uniqueSuffixGo taken base fuel cur counter ∈ taken →
      cur ∈ taken ∧ ∀ i, counter ≤ i → i < counter + fuel →
        (base ++ "-" ++ natRepr i) ∈ taken := by
  intro fuel
  induction fuel with
  | zero =>
    intro cur counter h
    exact ⟨h, fun i h1 h2 => absurd h1 (by omega)⟩
  | succ fuel ih =>
    intro cur counter h
    unfold uniqueSuffixGo at h
    by_cases hc : cur ∈ taken
    · rw [if_pos hc] at h
      obtain ⟨h1, h2⟩ := ih _ _ h
      refine ⟨hc, fun i hi1 hi2 => ?_⟩
      rcases Nat.eq_or_lt_of_le hi1 with rfl | hlt
      · exact h1
      · exact h2 i hlt (by omega)
    · rw [if_neg hc] at h
      exact absurd h hc

theorem uniqueSuffix_not_mem (taken : List String) (base : String) :
    uniqueSuffix taken base ∉ taken := by
  intro h
  obtain ⟨-, hall⟩ := uniqueSuffixGo_mem taken base _ _ _ h
  have hsub : ((Finset.Icc 1 (taken.length + 1)).image
      (fun i => base ++ "-" ++ natRepr i)) ⊆ taken.toFinset := by
    intro x hx
    obtain ⟨i, hi, rfl⟩ := Finset.mem_image.mp hx
    obtain ⟨hi1, hi2⟩ := Finset.mem_Icc.mp hi
    exact List.mem_toFinset.mpr (hall i hi1 (by omega))
  have hcard := Finset.card_le_card hsub
  rw [Finset.card_image_of_injective _ (suffixed_injective base), Nat.card_Icc] at hcard
  have := List.toFinset_card_le taken
  omega

theorem uniqueSuffixGo_spec (taken : List String) (base : String) :
    ∀ fuel cur counter, uniqueSuffixGo taken base fuel cur counter ∉ taken →
      (cur ∉ taken ∧ uniqueSuffixGo taken base fuel cur counter = cur) ∨
      (cur ∈ taken ∧ ∃ k, counter ≤ k ∧ k < counter + fuel ∧
        uniqueSuffixGo taken base fuel cur counter = base ++ "-" ++ natRepr k ∧
        ∀ j, counter ≤ j → j < k → (base ++ "-" ++ natRepr j) ∈ taken) := by
  intro fuel
  induction fuel with
  | zero =>
    intro cur counter h
    exact Or.inl ⟨h, rfl⟩
  | succ fuel ih =>
    intro cur counter h
    unfold uniqueSuffixGo at h ⊢
    by_cases hc : cur ∈ taken
    · rw [if_pos hc] at h ⊢
      rcases ih _ _ h with ⟨hnot, heq⟩ | ⟨hmem, k, hk1, hk2, heq, hall⟩
      · exact Or.inr ⟨hc, counter, Nat.le_refl _, by omega, heq,
          fun j hj1 hj2 => absurd hj1 (by omega)⟩
      · refine Or.inr ⟨hc, k, by omega, by omega, heq, fun j hj1 hj2 => ?_⟩
        rcases Nat.eq_or_lt_of_le hj1 with rfl | hlt
        · exact hmem
        · exact hall j hlt hj2
    · rw [if_neg hc] at h ⊢
      exact Or.inl ⟨hc, rfl⟩

/-- The loop result when the base is free. -/
theorem uniqueSuffix_eq_base (taken : List String) (base : String)
    (h : base ∉ taken) : uniqueSuffix taken base = base := by
  unfold uniqueSuffix uniqueSuffixGo
  rw [if_neg h]

/-- The loop result on a collision: `base-k` for the least free `k ≥ 1`. -/
theorem uniqueSuffix_of_mem (taken : List String) (base : String)
    (h : base ∈ taken) :
    ∃ k, 1 ≤ k ∧ uniqueSuffix taken base = base ++ "-" ++ natRepr k ∧
      (base ++ "-" ++ natRepr k) ∉ taken ∧
      ∀ j, 1 ≤ j → j < k → (base ++ "-" ++ natRepr j) ∈ taken := by
  have hnm := uniqueSuffix_not_mem taken base
  rcases uniqueSuffixGo_spec taken base _ _ _ hnm with ⟨hnot, -⟩ | ⟨-, k, hk1, -, heq, hall⟩
  · exact absurd h hnot
  · exact ⟨k, hk1, heq, heq ▸ hnm, hall⟩

/- ### Whitespace-free strings survive `strip` -/

theorem dropWhile_eq_self_of_head (p : Char → Bool) (l : List Char)
    (h : ∀ c, l.head? = some c → p c = false) : l.dropWhile p = l := by
  cases l with
  | nil => rfl
  | cons a l =>
    rw [List.dropWhile_cons, if_neg]
    simp [h a rfl]

theorem stripChars_eq_self (cs : List Char)
    (hh : ∀ c, cs.head? = some c → isPySpace c = false)
    (hl : ∀ c, cs.getLast? = some c → isPySpace c = false) :
    stripChars cs = cs := by
  unfold stripChars
  rw [dropWhile_eq_self_of_head _ _ hh]
  rw [dropWhile_eq_self_of_head _ _ (fun c hc => hl c (by rwa [List.head?_reverse] at hc))]
  rw [List.reverse_reverse]

theorem pyStrip_eq_self_of_no_space (s : String)
    (h : ∀ c ∈ s.data, isPySpace c = false) : pyStrip s = s := by
  unfold pyStrip
  rw [stripChars_eq_self s.data
    (fun c hc => h c (by
      cases hs : s.data with
      | nil => rw [hs] at hc; exact absurd hc (by simp)
      | cons a l =>
        rw [hs] at hc
        simp only [List.head?_cons, Option.some.injEq] at hc
        rw [← hc]
        exact List.mem_cons_self a l))
    (fun c hc => h c (by
      obtain ⟨hne, heq⟩ := List.mem_getLast?_eq_getLast (l := s.data) (x := c)
        (by rw [Option.mem_def]; exact hc)
      rw [heq]
      exact List.getLast_mem hne))]

theorem pyStrip_eq_self_of_ends (s : String)
    (hh : ∀ c, s.data.head? = some c → isPySpace c = false)
    (hl : ∀ c, s.data.getLast? = some c → isPySpace c = false) : pyStrip s = s := by
  unfold pyStrip
  rw [stripChars_eq_self s.data hh hl]

/- ### Token soundness for `splitRuns` and `joinSep` -/

theorem splitRunsAux_sound (p : Char → Bool) :
    ∀ (cs acc : List Char), (∀ c ∈ acc, p c = true) →
      ∀ t ∈ splitRunsAux p cs acc, t ≠ [] ∧ ∀ c ∈ t, p c = true := by
  intro cs
  induction cs with
  | nil =>
    intro acc hacc t ht
    unfold splitRunsAux at ht
    by_cases he : acc.isEmpty
    · rw [if_pos he] at ht
      exact absurd ht (List.not_mem_nil t)
    · rw [if_neg he] at ht
      simp only [List.mem_singleton] at ht
      subst ht
      refine ⟨fun hrev => ?_, fun c hcmem => hacc c (List.mem_reverse.mp hcmem)⟩
      rw [List.reverse_eq_nil_iff] at hrev
      rw [hrev] at he
      exact he rfl
  | cons a cs ih =>
    intro acc hacc t ht
    unfold splitRunsAux at ht
    by_cases hpa : p a
    · rw [if_pos hpa] at ht
      refine ih (a :: acc) (fun c hc => ?_) t ht
      rcases List.mem_cons.mp hc with rfl | h
      · exact hpa
      · exact hacc c h
    · rw [if_neg hpa] at ht
      by_cases he : acc.isEmpty
      · rw [if_pos he] at ht
        exact ih [] (by simp) t ht
      · rw [if_neg he] at ht
        rcases List.mem_cons.mp ht with rfl | h
        · refine ⟨fun hrev => ?_, fun c hcmem => hacc c (List.mem_reverse.mp hcmem)⟩
          rw [List.reverse_eq_nil_iff] at hrev
          rw [hrev] at he
          exact he rfl
        · exact ih [] (by simp) t h

theorem splitRuns_sound (p : Char → Bool) (cs : List Char) :
    ∀ t ∈ splitRuns p cs, t ≠ [] ∧ ∀ c ∈ t, p c = true :=
  splitRunsAux_sound p cs [] (by simp)

theorem joinSep_cons_cons (sep : Char) (t t2 : List Char) (ts : List (List Char)) :
    joinSep sep (t :: t2 :: ts) = t ++ sep :: joinSep sep (t2 :: ts) := rfl

theorem joinSep_chars (sep : Char) (p : Char → Bool) (hsep : p sep = true) :
    ∀ ts, (∀ t ∈ ts, ∀ c ∈ t, p c = true) → ∀ c ∈ joinSep sep ts, p c = true := by
  intro ts
  induction ts with
  | nil =>
    intro _ c hc
    exact absurd hc (List.not_mem_nil c)
  | cons t ts ih =>
    intro hall c hc
    cases ts with
    | nil => exact hall t (List.mem_cons_self _ _) c hc
    | cons t2 ts2 =>
      rw [joinSep_cons_cons] at hc
      rcases List.mem_append.mp hc with h | h
      · exact hall t (List.mem_cons_self _ _) c h
      · rcases List.mem_cons.mp h with rfl | h2
        · exact hsep
        · exact ih (fun u hu => hall u (List.mem_cons_of_mem _ hu)) c h2

/- ### Slugs, decimal strings and uniquified ids contain no whitespace -/

theorem slugify_no_space (s : String) :
    ∀ c ∈ (slugify s).data, isPySpace c = false := by
  intro c hc
  unfold slugify at hc
  have hmain := joinSep_chars '-' (fun c => !isPySpace c) (by decide)
    ((splitRuns isSlugChar s.data).map (fun t => t.map Char.toLower))
    (fun t ht c2 hc2 => by
      obtain ⟨t0, ht0, rfl⟩ := List.mem_map.mp ht
      obtain ⟨c0, hc0, rfl⟩ := List.mem_map.mp hc2
      have hsound := (splitRuns_sound isSlugChar s.data t0 ht0).2 c0 hc0
      simp [isPySpace_toLower_eq_false c0 hsound]) c hc
  simpa using hmain

theorem natDigitsAux_no_space (fuel : Nat) :
    ∀ n, ∀ c ∈ natDigitsAux fuel n, isPySpace c = false := by
  induction fuel with
  | zero =>
    intro n c hc
    exact absurd hc (List.not_mem_nil c)
  | succ fuel ih =>
    intro n c hc
    unfold natDigitsAux at hc
    by_cases h0 : n = 0
    · rw [if_pos h0] at hc
      exact absurd hc (List.not_mem_nil c)
    · rw [if_neg h0] at hc
      rcases List.mem_append.mp hc with h | h
      · exact ih _ c h
      · rw [List.mem_singleton] at h
        rw [h]
        exact isPySpace_digitChar_eq_false _ (Nat.mod_lt n (by omega))

theorem natRepr_no_space (n : Nat) :
    ∀ c ∈ (natRepr n).data, isPySpace c = false := by
  intro c hc
  unfold natRepr at hc
  by_cases h0 : n = 0
  · rw [if_pos h0] at hc
    simp only [List.mem_singleton, show ("0" : String).data = ['0'] from rfl] at hc
    rw [hc]
    decide
  · rw [if_neg h0] at hc
    exact natDigitsAux_no_space n n c hc

theorem uniqueSuffixGo_no_space (taken : List String) (base : String)
    (hbase : ∀ c ∈ base.data, isPySpace c = false) :
    ∀ fuel cur counter, (∀ c ∈ cur.data, isPySpace c = false) →
      ∀ c ∈ (uniqueSuffixGo taken base fuel cur counter).data, isPySpace c = false := by
  intro fuel
  induction fuel with
  | zero =>
    intro cur counter hcur c hc
    exact hcur c hc
  | succ fuel ih =>
    intro cur counter hcur c hc
    unfold uniqueSuffixGo at hc
    by_cases hmem : cur ∈ taken
    · rw [if_pos hmem] at hc
      refine ih _ _ (fun c2 hc2 => ?_) c hc
      simp only [String.data_append'] at hc2
      rcases List.mem_append.mp hc2 with h | h
      · rcases List.mem_append.mp h with h2 | h2
        · exact hbase c2 h2
        · rw [List.mem_singleton] at h2
          rw [h2]
          decide
      · exact natRepr_no_space _ c2 h
    · rw [if_neg hmem] at hc
      exact hcur c hc

theorem pyStrip_uniqueSuffix (taken : List String) (base : String)
    (hbase : ∀ c ∈ base.data, isPySpace c = false) :
    pyStrip (uniqueSuffix taken base) = uniqueSuffix taken base :=
  pyStrip_eq_self_of_no_space _
    (uniqueSuffixGo_no_space taken base hbase _ _ _ hbase)

theorem uniqueSuffix_ne_empty (taken : List String) (base : String)
    (hbase : base ≠ "") : uniqueSuffix taken base ≠ "" := by
  by_cases hb : base ∈ taken
  · obtain ⟨k, -, heq, -, -⟩ := uniqueSuffix_of_mem taken base hb
    rw [heq]
    intro hcontra
    have := congrArg String.data hcontra
    simp [String.data_append'] at this
  · rw [uniqueSuffix_eq_base taken base hb]
    exact hbase

theorem append_suffix_one (base : String) :
    base ++ "-" ++ natRepr 1 = base ++ "-1" := by
  have h : (base ++ "-" ++ natRepr 1).data = (base ++ "-1").data := by
    simp [String.data_append', natRepr, natDigitsAux, digitChar]
  rw [← String.mk_data (base ++ "-" ++ natRepr 1), h, String.mk_data]

theorem ne_append_dash_one (base : String) : base ≠ base ++ "-1" := by
  intro h
  have := congrArg (fun s => s.data.length) h
  simp [String.data_append'] at this

/-- C8: when an activity is created through the `activity.new` handler with
no explicit folder name, the derived folder is `f"{year}-{slugify(title)}"`,
uniquified against all existing activities' folders by the append-counter
loop: the result is never among the existing folders; it equals the derived
base when that is free; on a collision it is `base-k` for the least free
`k ≥ 1`; and creating two activities with colliding titles and years yields
distinct folders, the second one being `base-1`. -/
theorem C8_activity_folder_unique (folders : List String) (title : String) (y : Int) :
    ActivityBlueprint.newFolder folders title (some y) none ∉ folders ∧
    (intRepr y ++ "-" ++ slugify title ∉ folders →
      ActivityBlueprint.newFolder folders title (some y) none =
        intRepr y ++ "-" ++ slugify title) ∧
    (intRepr y ++ "-" ++ slugify title ∈ folders →
      ∃ k, 1 ≤ k ∧
        ActivityBlueprint.newFolder folders title (some y) none =
          intRepr y ++ "-" ++ slugify title ++ "-" ++ natRepr k ∧
        (∀ j, 1 ≤ j → j < k →
          intRepr y ++ "-" ++ slugify title ++ "-" ++ natRepr j ∈ folders)) ∧
    (intRepr y ++ "-" ++ slugify title ∉ folders →
      (intRepr y ++ "-" ++ slugify title) ++ "-1" ∉ folders →
      ActivityBlueprint.newFolder
          ((intRepr y ++ "-" ++ slugify title) :: folders) title (some y) none =
        (intRepr y ++ "-" ++ slugify title) ++ "-1" ∧
      ActivityBlueprint.newFolder folders title (some y) none ≠
        ActivityBlueprint.newFolder
          ((intRepr y ++ "-" ++ slugify title) :: folders) title (some y) none) := by
  have hbase : ∀ fs : List String,
      ActivityBlueprint.newFolder fs title (some y) none =
        uniqueSuffix fs (intRepr y ++ "-" ++ slugify title) := by
    intro fs
    rfl
  refine ⟨?_, ?_, ?_, ?_⟩
  · rw [hbase]
    exact uniqueSuffix_not_mem _ _
  · intro h
    rw [hbase]
    exact uniqueSuffix_eq_base _ _ h
  · intro h
    obtain ⟨k, hk1, heq, -, hall⟩ := uniqueSuffix_of_mem folders _ h
    exact ⟨k, hk1, (hbase folders).trans heq, hall⟩
  · intro h1 h2
    have hmem : intRepr y ++ "-" ++ slugify title ∈
        (intRepr y ++ "-" ++ slugify title) :: folders := List.mem_cons_self _ _
    obtain ⟨k, hk1, heq, hfree, hall⟩ := uniqueSuffix_of_mem
      ((intRepr y ++ "-" ++ slugify title) :: folders) _ hmem
    have hk : k = 1 := by
      by_contra hne
      have h1lt : 1 < k := by omega
      have := hall 1 (Nat.le_refl 1) h1lt
      rw [append_suffix_one] at this
      rcases List.mem_cons.mp this with hcontra | hcontra
      · exact ne_append_dash_one _ hcontra.symm
      · exact h2 hcontra
    subst hk
    rw [hbase, heq, append_suffix_one]
    refine ⟨rfl, ?_⟩
    rw [hbase, uniqueSuffix_eq_base _ _ h1]
    exact ne_append_dash_one _

/-- C8 (witness): the folder theorem at concrete inputs — title "Gala!",
year 2024, one existing colliding folder. -/
theorem C8_activity_folder_unique_witness :
    ((intRepr 2024 ++ "-" ++ slugify "Gala!" ∉ ([] : List String)) ∧
     ((intRepr 2024 ++ "-" ++ slugify "Gala!") ++ "-1" ∉ ([] : List String))) ∧
    (ActivityBlueprint.newFolder [intRepr 2024 ++ "-" ++ slugify "Gala!"] "Gala!"
        (some 2024) none = (intRepr 2024 ++ "-" ++ slugify "Gala!") ++ "-1" ∧
     ActivityBlueprint.newFolder [] "Gala!" (some 2024) none ≠
       ActivityBlueprint.newFolder [intRepr 2024 ++ "-" ++ slugify "Gala!"] "Gala!"
         (some 2024) none) :=
  ⟨⟨by decide, by decide⟩,
   (C8_activity_folder_unique [] "Gala!" 2024).2.2.2 (by decide) (by decide)⟩

/-- C9: a quick-created member with no explicit id receives
`slugify(f"{last}-{first}")` as id when free; on a collision, the first free
`slug-k` with `k = 1, 2, …`; the assigned id is never among the existing
member ids. -/
theorem C9_quick_create_member_id (db : DB) (first_name last_name : String)
    (h1 : first_name ≠ "") (h2 : last_name ≠ "")
    (h3 : slugify (last_name ++ "-" ++ first_name) ≠ "") :
    ∃ m db', MemberService.quick_create_member db first_name last_name none =
        .ok (m, db') ∧
      (slugify (last_name ++ "-" ++ first_name) ∉ db.members.map Member.id_member →
        m.id_member = slugify (last_name ++ "-" ++ first_name)) ∧
      (slugify (last_name ++ "-" ++ first_name) ∈ db.members.map Member.id_member →
        ∃ k, 1 ≤ k ∧
          m.id_member = slugify (last_name ++ "-" ++ first_name) ++ "-" ++ natRepr k ∧
          ∀ j, 1 ≤ j → j < k →
            slugify (last_name ++ "-" ++ first_name) ++ "-" ++ natRepr j ∈
              db.members.map Member.id_member) ∧
      m.id_member ∉ db.members.map Member.id_member := by
  have hstrip : pyStrip (uniqueSuffix (db.members.map Member.id_member)
      (slugify (last_name ++ "-" ++ first_name))) =
      uniqueSuffix (db.members.map Member.id_member)
        (slugify (last_name ++ "-" ++ first_name)) :=
    pyStrip_uniqueSuffix _ _ (slugify_no_space _)
  have hne : uniqueSuffix (db.members.map Member.id_member)
      (slugify (last_name ++ "-" ++ first_name)) ≠ "" :=
    uniqueSuffix_ne_empty _ _ h3
  unfold MemberService.quick_create_member MemberService.create_member
  rw [if_neg (by
    rintro (h | h | h)
    · exact hne h
    · exact h1 h
    · exact h2 h)]
  refine ⟨_, _, rfl, ?_, ?_, ?_⟩
  · intro hfree
    show pyStrip _ = _
    rw [hstrip]
    exact uniqueSuffix_eq_base _ _ hfree
  · intro hmem
    obtain ⟨k, hk1, heq, -, hall⟩ := uniqueSuffix_of_mem
      (db.members.map Member.id_member) _ hmem
    refine ⟨k, hk1, ?_, hall⟩
    show pyStrip _ = _
    rw [hstrip]
    exact heq
  · show pyStrip _ ∉ _
    rw [hstrip]
    exact uniqueSuffix_not_mem _ _

/-- C9 (witness): quick-creating "John Doe" against a store already holding
the id `doe-john` yields the id `doe-john-1`. -/
theorem C9_quick_create_member_id_witness :
    (("John" : String) ≠ "" ∧ ("Doe" : String) ≠ "" ∧
     slugify ("Doe" ++ "-" ++ "John") ≠ "") ∧
    (∃ m db', MemberService.quick_create_member
        { emptyDB with members := [⟨"doe-john", some "J", some "D", none, some 1, none⟩] }
        "John" "Doe" none = .ok (m, db') ∧
      (slugify ("Doe" ++ "-" ++ "John") ∉
          ({ emptyDB with
             members := [⟨"doe-john", some "J", some "D", none, some 1, none⟩] } : DB).members.map
            Member.id_member →
        m.id_member = slugify ("Doe" ++ "-" ++ "John")) ∧
      (slugify ("Doe" ++ "-" ++ "John") ∈
          ({ emptyDB with
             members := [⟨"doe-john", some "J", some "D", none, some 1, none⟩] } : DB).members.map
            Member.id_member →
        ∃ k, 1 ≤ k ∧
          m.id_member = slugify ("Doe" ++ "-" ++ "John") ++ "-" ++ natRepr k ∧
          ∀ j, 1 ≤ j → j < k →
            slugify ("Doe" ++ "-" ++ "John") ++ "-" ++ natRepr j ∈
              ({ emptyDB with
                 members := [⟨"doe-john", some "J", some "D", none, some 1, none⟩] } : DB).members.map
                Member.id_member) ∧
      m.id_member ∉
        ({ emptyDB with
           members := [⟨"doe-john", some "J", some "D", none, some 1, none⟩] } : DB).members.map
          Member.id_member) :=
  ⟨⟨by decide, by decide, by decide⟩,
   C9_quick_create_member_id
     { emptyDB with members := [⟨"doe-john", some "J", some "D", none, some 1, none⟩] }
     "John" "Doe" (by decide) (by decide) (by decide)⟩

/- ### Per-line accounting for the bulk parser -/

theorem processLine_count (act delim : String) (c : Nat) (e : List String)
    (d : DB) (line : String) :
    (RoleService.processLine act delim (c, e, d) line).1 +
      (RoleService.processLine act delim (c, e, d) line).2.1.length =
      c + e.length + 1 := by
  simp only [RoleService.processLine]
  by_cases h1 : ¬ containsSub line delim = true
  · rw [if_pos h1]
    simp
    omega
  · rw [if_neg h1]
    by_cases h2 : pyStrip (pySplit1 line delim).1 = "" ∨ pyStrip (pySplit1 line delim).2 = ""
    · rw [if_pos h2]
      simp
      omega
    · rw [if_neg h2]
      cases hf : RoleService.find_or_create_member_by_name d
          (pyStrip (pySplit1 line delim).2) with
      | error err =>
        simp
        omega
      | ok p =>
        obtain ⟨mem, d1⟩ := p
        dsimp only
        split
        · simp
          omega
        · simp [RoleService.create_role]
          omega

theorem bulk_count_aux (act delim : String) :
    ∀ (ls : List String) (c : Nat) (e : List String) (d : DB),
      (ls.foldl (RoleService.processLine act delim) (c, e, d)).1 +
        (ls.foldl (RoleService.processLine act delim) (c, e, d)).2.1.length =
        c + e.length + ls.length := by
  intro ls
  induction ls with
  | nil =>
    intro c e d
    simp
  | cons l ls ih =>
    intro c e d
    rw [List.foldl_cons]
    rcases hp : RoleService.processLine act delim (c, e, d) l with ⟨c', e', d'⟩
    have hcount := processLine_count act delim c e d l
    rw [hp] at hcount
    simp only at hcount
    rw [ih]
    simp only [List.length_cons]
    omega

/-- C4: the program-text parser processes the non-blank trimmed lines in
order; a delimiter-less line records a skip-error and creates nothing; a
line with an empty role or actor side records a skip-error and creates
nothing; the actor name is split on the last-whitespace-token rule; and on
the spec's concrete three-line text it creates 2 roles, reports exactly the
one skip message, and resolves the members "John Doe" and "Jane Smith" with
last names "Doe" and "Smith" (ids `doe-john`, `smith-jane`). -/
theorem C4_bulk_parse_lines :
    (∀ (act delim : String) (c : Nat) (e : List String) (d : DB) (line : String),
      containsSub line delim = false →
      RoleService.processLine act delim (c, e, d) line =
        (c, e ++ [RoleService.noDelimMsg line], d)) ∧
    (∀ (act delim : String) (c : Nat) (e : List String) (d : DB) (line : String),
      containsSub line delim = true →
      (pyStrip (pySplit1 line delim).1 = "" ∨ pyStrip (pySplit1 line delim).2 = "") →
      RoleService.processLine act delim (c, e, d) line =
        (c, e ++ [RoleService.emptyFieldMsg line], d)) ∧
    RoleService.nameSplit "John Doe" = ("John", "Doe") ∧
    RoleService.nameSplit "Anna Maria von Berg" = ("Anna Maria von", "Berg") ∧
    RoleService.nameSplit "Madonna" = ("Madonna", "") ∧
    (RoleService.bulk_create_from_text emptyDB "act1"
        "Director – John Doe\nHamlet – Jane Smith\nNotADelimiterLine" "–").1 = 2 ∧
    (RoleService.bulk_create_from_text emptyDB "act1"
        "Director – John Doe\nHamlet – Jane Smith\nNotADelimiterLine" "–").2.1 =
      [RoleService.noDelimMsg "NotADelimiterLine"] ∧
    (RoleService.bulk_create_from_text emptyDB "act1"
        "Director – John Doe\nHamlet – Jane Smith\nNotADelimiterLine" "–").2.2.members.map
        (fun m => (m.id_member, m.current_first_name, m.current_last_name)) =
      [("doe-john", some "John", some "Doe"), ("smith-jane", some "Jane", some "Smith")] ∧
    (RoleService.bulk_create_from_text emptyDB "act1"
        "Director – John Doe\nHamlet – Jane Smith\nNotADelimiterLine" "–").2.2.roles.map
        (fun r => (r.id_activity, r.id_member, r.role_name)) =
      [("act1", "doe-john", some "Director"), ("act1", "smith-jane", some "Hamlet")] := by
  refine ⟨?_, ?_, by decide, by decide, by decide, by decide, by decide, by decide, by decide⟩
  · intro act delim c e d line h
    simp only [RoleService.processLine]
    rw [if_pos (by simp [h])]
  · intro act delim c e d line h1 h2
    simp only [RoleService.processLine]
    rw [if_neg (by simp [h1]), if_pos h2]

/-- C4 (witness): the per-line skip rules applied at concrete inputs. -/
theorem C4_bulk_parse_lines_witness :
    (containsSub "NotADelimiterLine" "–" = false ∧
     RoleService.processLine "act1" "–" (0, [], emptyDB) "NotADelimiterLine" =
       (0, [RoleService.noDelimMsg "NotADelimiterLine"], emptyDB)) ∧
    (containsSub "– John Doe" "–" = true ∧
     RoleService.processLine "act1" "–" (0, [], emptyDB) "– John Doe" =
       (0, [RoleService.emptyFieldMsg "– John Doe"], emptyDB)) :=
  ⟨⟨by decide,
    C4_bulk_parse_lines.1 "act1" "–" 0 [] emptyDB "NotADelimiterLine" (by decide)⟩,
   ⟨by decide,
    C4_bulk_parse_lines.2.1 "act1" "–" 0 [] emptyDB "– John Doe" (by decide) (by decide)⟩⟩

/-- C6: `bulk_create_from_text` is total — it always returns a created count
together with the ordered per-line messages, and every non-blank line
contributes exactly one unit: either one created role or one recorded
message (skip, duplicate, or caught per-line exception).  The second
conjunct is the caught-exception case itself: a line whose member
resolution raises is recorded as a per-line error, the store is left
unchanged for that line, and processing continues (the fold moves on with
the same state). -/
theorem C6_bulk_total_accounting :
    (∀ (db : DB) (act text delim : String),
      (RoleService.bulk_create_from_text db act text delim).1 +
        (RoleService.bulk_create_from_text db act text delim).2.1.length =
        (RoleService.bulkLines text).length) ∧
    (∀ (act delim : String) (c : Nat) (e : List String) (d : DB) (line err : String),
      containsSub line delim = true →
      pyStrip (pySplit1 line delim).1 ≠ "" →
      pyStrip (pySplit1 line delim).2 ≠ "" →
      RoleService.find_or_create_member_by_name d (pyStrip (pySplit1 line delim).2) =
        .error err →
      RoleService.processLine act delim (c, e, d) line =
        (c, e ++ [RoleService.lineErrorMsg line err], d)) := by
  constructor
  · intro db act text delim
    have h := bulk_count_aux act delim (RoleService.bulkLines text) 0 [] db
    simpa [RoleService.bulk_create_from_text] using h
  · intro act delim c e d line err h1 h2 h3 hf
    simp only [RoleService.processLine]
    rw [if_neg (by simp [h1]), if_neg (by simp [h2, h3]), hf]

/-- C6 (witness): the accounting and the caught-exception behaviour at
concrete inputs — the line "R – Ann" raises a `ValueError` inside member
creation (single-token name, so the last name is empty), which is caught
and recorded while the store stays unchanged. -/
theorem C6_bulk_total_accounting_witness :
    ((RoleService.bulk_create_from_text emptyDB "act1"
        "Director – John Doe\nHamlet – Jane Smith\nNotADelimiterLine" "–").1 +
      (RoleService.bulk_create_from_text emptyDB "act1"
        "Director – John Doe\nHamlet – Jane Smith\nNotADelimiterLine" "–").2.1.length =
      (RoleService.bulkLines
        "Director – John Doe\nHamlet – Jane Smith\nNotADelimiterLine").length) ∧
    (RoleService.find_or_create_member_by_name emptyDB "Ann" =
       .error "id_member, first_name and last_name are required" ∧
     RoleService.processLine "act1" "–" (0, [], emptyDB) "R – Ann" =
       (0, [RoleService.lineErrorMsg "R – Ann"
              "id_member, first_name and last_name are required"], emptyDB)) :=
  ⟨C6_bulk_total_accounting.1 emptyDB "act1"
     "Director – John Doe\nHamlet – Jane Smith\nNotADelimiterLine" "–",
   ⟨by decide,
    C6_bulk_total_accounting.2 "act1" "–" 0 [] emptyDB "R – Ann"
      "id_member, first_name and last_name are required"
      (by decide) (by decide) (by decide) (by decide)⟩⟩

/- ### Message shapes -/

theorem not_prefix_of_head_ne {a b : Char} {l₁ l₂ : List Char} (h : a ≠ b) :
    ¬(a :: l₁ <+: b :: l₂) := by
  rintro ⟨t, ht⟩
  rw [List.cons_append] at ht
  injection ht with h1 h2
  exact h h1

theorem isErrorMsg_lineErrorMsg (l e : String) :
    RoleService.isErrorMsg (RoleService.lineErrorMsg l e) = true := by
  unfold RoleService.isErrorMsg RoleService.lineErrorMsg
  rw [decide_eq_true_eq]
  refine ⟨l.data ++ ("': ").data ++ e.data, ?_⟩
  simp [String.data_append']

theorem isErrorMsg_noDelimMsg (l : String) :
    RoleService.isErrorMsg (RoleService.noDelimMsg l) = false := by
  unfold RoleService.isErrorMsg RoleService.noDelimMsg
  rw [decide_eq_false_iff_not]
  rw [show ("Error processing '").data = 'E' :: ("rror processing '").data from rfl]
  rw [show ("Skipped (no delimiter): " ++ l).data =
    'S' :: (("kipped (no delimiter): ").data ++ l.data) from rfl]
  exact not_prefix_of_head_ne (by decide)

theorem isErrorMsg_emptyFieldMsg (l : String) :
    RoleService.isErrorMsg (RoleService.emptyFieldMsg l) = false := by
  unfold RoleService.isErrorMsg RoleService.emptyFieldMsg
  rw [decide_eq_false_iff_not]
  rw [show ("Error processing '").data = 'E' :: ("rror processing '").data from rfl]
  rw [show ("Skipped (empty field): " ++ l).data =
    'S' :: (("kipped (empty field): ").data ++ l.data) from rfl]
  exact not_prefix_of_head_ne (by decide)

theorem isErrorMsg_alreadyMsg (r a : String) :
    RoleService.isErrorMsg (RoleService.alreadyMsg r a) = false := by
  unfold RoleService.isErrorMsg RoleService.alreadyMsg
  rw [decide_eq_false_iff_not]
  rw [show ("Error processing '").data = 'E' :: ("rror processing '").data from rfl]
  rw [show ("Already exists: " ++ r ++ " – " ++ a).data =
    'A' :: (("lready exists: ").data ++ r.data ++ (" – ").data ++ a.data) from by
      simp [String.data_append']]
  exact not_prefix_of_head_ne (by decide)

theorem isAlreadyMsg_alreadyMsg (r a : String) :
    RoleService.isAlreadyMsg (RoleService.alreadyMsg r a) = true := by
  unfold RoleService.isAlreadyMsg RoleService.alreadyMsg
  rw [decide_eq_true_eq]
  refine ⟨r.data ++ (" – ").data ++ a.data, ?_⟩
  simp [String.data_append']

theorem isAlreadyMsg_noDelimMsg (l : String) :
    RoleService.isAlreadyMsg (RoleService.noDelimMsg l) = false := by
  unfold RoleService.isAlreadyMsg RoleService.noDelimMsg
  rw [decide_eq_false_iff_not]
  rw [show ("Already exists: ").data = 'A' :: ("lready exists: ").data from rfl]
  rw [show ("Skipped (no delimiter): " ++ l).data =
    'S' :: (("kipped (no delimiter): ").data ++ l.data) from rfl]
  exact not_prefix_of_head_ne (by decide)

theorem isAlreadyMsg_emptyFieldMsg (l : String) :
    RoleService.isAlreadyMsg (RoleService.emptyFieldMsg l) = false := by
  unfold RoleService.isAlreadyMsg RoleService.emptyFieldMsg
  rw [decide_eq_false_iff_not]
  rw [show ("Already exists: ").data = 'A' :: ("lready exists: ").data from rfl]
  rw [show ("Skipped (empty field): " ++ l).data =
    'S' :: (("kipped (empty field): ").data ++ l.data) from rfl]
  exact not_prefix_of_head_ne (by decide)

/- ### `rerunMsg` unfoldings -/

theorem rerunMsg_noDelim (delim l : String) (h : containsSub l delim = false) :
    RoleService.rerunMsg delim l = RoleService.noDelimMsg l := by
  unfold RoleService.rerunMsg
  rw [if_pos (by simp [h])]

theorem rerunMsg_emptyField (delim l : String) (h1 : containsSub l delim = true)
    (h2 : pyStrip (pySplit1 l delim).1 = "" ∨ pyStrip (pySplit1 l delim).2 = "") :
    RoleService.rerunMsg delim l = RoleService.emptyFieldMsg l := by
  unfold RoleService.rerunMsg
  rw [if_neg (by simp [h1]), if_pos h2]

theorem rerunMsg_already (delim l : String) (h1 : containsSub l delim = true)
    (h2 : pyStrip (pySplit1 l delim).1 ≠ "") (h3 : pyStrip (pySplit1 l delim).2 ≠ "") :
    RoleService.rerunMsg delim l =
      RoleService.alreadyMsg (pyStrip (pySplit1 l delim).1) (pyStrip (pySplit1 l delim).2) := by
  unfold RoleService.rerunMsg
  rw [if_neg (by simp [h1]), if_neg (by simp [h2, h3])]

/- ### `processLine` branch lemmas -/

theorem processLine_noDelim (act delim : String) (c : Nat) (e : List String)
    (d : DB) (line : String) (h : containsSub line delim = false) :
    RoleService.processLine act delim (c, e, d) line =
      (c, e ++ [RoleService.noDelimMsg line], d) := by
  simp only [RoleService.processLine]
  rw [if_pos (by simp [h])]

theorem processLine_emptyField (act delim : String) (c : Nat) (e : List String)
    (d : DB) (line : String) (h1 : containsSub line delim = true)
    (h2 : pyStrip (pySplit1 line delim).1 = "" ∨ pyStrip (pySplit1 line delim).2 = "") :
    RoleService.processLine act delim (c, e, d) line =
      (c, e ++ [RoleService.emptyFieldMsg line], d) := by
  simp only [RoleService.processLine]
  rw [if_neg (by simp [h1]), if_pos h2]

theorem processLine_already (act delim : String) (c : Nat) (e : List String)
    (d : DB) (line : String) (mem : Member)
    (h1 : containsSub line delim = true)
    (h2 : pyStrip (pySplit1 line delim).1 ≠ "")
    (h3 : pyStrip (pySplit1 line delim).2 ≠ "")
    (hfo : RoleService.find_or_create_member_by_name d (pyStrip (pySplit1 line delim).2) =
      .ok (mem, d))
    (hdup : (d.roles.find? (RoleService.roleKeyMatches act mem.id_member
      (pyStrip (pySplit1 line delim).1))).isSome = true) :
    RoleService.processLine act delim (c, e, d) line =
      (c, e ++ [RoleService.alreadyMsg (pyStrip (pySplit1 line delim).1)
        (pyStrip (pySplit1 line delim).2)], d) := by
  simp only [RoleService.processLine]
  rw [if_neg (by simp [h1]), if_neg (by simp [h2, h3]), hfo]
  dsimp only
  rw [if_pos hdup]

/-- Full branch classification of one `for`-loop iteration. -/
theorem processLine_cases (act delim : String) (c : Nat) (E : List String)
    (d : DB) (l : String) :
    (containsSub l delim = false ∧
      RoleService.processLine act delim (c, E, d) l =
        (c, E ++ [RoleService.noDelimMsg l], d)) ∨
    (containsSub l delim = true ∧
      (pyStrip (pySplit1 l delim).1 = "" ∨ pyStrip (pySplit1 l delim).2 = "") ∧
      RoleService.processLine act delim (c, E, d) l =
        (c, E ++ [RoleService.emptyFieldMsg l], d)) ∨
    (∃ err, containsSub l delim = true ∧
      pyStrip (pySplit1 l delim).1 ≠ "" ∧ pyStrip (pySplit1 l delim).2 ≠ "" ∧
      RoleService.find_or_create_member_by_name d (pyStrip (pySplit1 l delim).2) =
        .error err ∧
      RoleService.processLine act delim (c, E, d) l =
        (c, E ++ [RoleService.lineErrorMsg l err], d)) ∨
    (∃ mem d1, containsSub l delim = true ∧
      pyStrip (pySplit1 l delim).1 ≠ "" ∧ pyStrip (pySplit1 l delim).2 ≠ "" ∧
      RoleService.find_or_create_member_by_name d (pyStrip (pySplit1 l delim).2) =
        .ok (mem, d1) ∧
      (d1.roles.find? (RoleService.roleKeyMatches act mem.id_member
        (pyStrip (pySplit1 l delim).1))).isSome = true ∧
      RoleService.processLine act delim (c, E, d) l =
        (c, E ++ [RoleService.alreadyMsg (pyStrip (pySplit1 l delim).1)
          (pyStrip (pySplit1 l delim).2)], d1)) ∨
    (∃ mem d1, containsSub l delim = true ∧
      pyStrip (pySplit1 l delim).1 ≠ "" ∧ pyStrip (pySplit1 l delim).2 ≠ "" ∧
      RoleService.find_or_create_member_by_name d (pyStrip (pySplit1 l delim).2) =
        .ok (mem, d1) ∧
      (d1.roles.find? (RoleService.roleKeyMatches act mem.id_member
        (pyStrip (pySplit1 l delim).1))).isSome = false ∧
      RoleService.processLine act delim (c, E, d) l =
        (c + 1, E, (RoleService.create_role d1 act mem.id_member
          (some (pyStrip (pySplit1 l delim).1)) none none none).2)) := by
  by_cases h1 : containsSub l delim = true
  · by_cases h2 : pyStrip (pySplit1 l delim).1 = "" ∨ pyStrip (pySplit1 l delim).2 = ""
    · exact Or.inr (Or.inl ⟨h1, h2, processLine_emptyField act delim c E d l h1 h2⟩)
    · push_neg at h2
      cases hf : RoleService.find_or_create_member_by_name d
          (pyStrip (pySplit1 l delim).2) with
      | error err =>
        refine Or.inr (Or.inr (Or.inl ⟨err, h1, h2.1, h2.2, rfl, ?_⟩))
        simp only [RoleService.processLine]
        rw [if_neg (by simp [h1]), if_neg (by simp [h2.1, h2.2]), hf]
      | ok p =>
        obtain ⟨mem, d1⟩ := p
        by_cases h3 : (d1.roles.find? (RoleService.roleKeyMatches act mem.id_member
            (pyStrip (pySplit1 l delim).1))).isSome = true
        · refine Or.inr (Or.inr (Or.inr (Or.inl ⟨mem, d1, h1, h2.1, h2.2, rfl, h3, ?_⟩)))
          simp only [RoleService.processLine]
          rw [if_neg (by simp [h1]), if_neg (by simp [h2.1, h2.2]), hf]
          dsimp only
          rw [if_pos h3]
        · refine Or.inr (Or.inr (Or.inr (Or.inr ⟨mem, d1, h1, h2.1, h2.2, rfl,
            (by simpa using h3), ?_⟩)))
          simp only [RoleService.processLine]
          rw [if_neg (by simp [h1]), if_neg (by simp [h2.1, h2.2]), hf]
          dsimp only
          rw [if_neg h3]
  · have h1f : containsSub l delim = false := by simpa using h1
    exact Or.inl ⟨h1f, processLine_noDelim act delim c E d l h1f⟩

/- ### Member resolution: analysis and stability -/

theorem ilikeSub_self (s : String) : ilikeSub s s = true := by
  unfold ilikeSub containsSub
  exact decide_eq_true (List.infix_refl _)

theorem getLastD_mem : ∀ (l : List String) (d : String), l ≠ [] → l.getLastD d ∈ l := by
  intro l
  induction l with
  | nil =>
    intro d h
    exact absurd rfl h
  | cons a as ih =>
    intro d _
    cases as with
    | nil => simp [List.getLastD]
    | cons b l2 =>
      rw [show (a :: b :: l2).getLastD d = (b :: l2).getLastD a from rfl]
      exact List.mem_cons_of_mem a (ih a (by simp))

theorem pySplitWS_tokens (s : String) :
    ∀ tok ∈ pySplitWS s, tok.data ≠ [] ∧ ∀ c ∈ tok.data, isPySpace c = false := by
  intro tok htok
  unfold pySplitWS at htok
  obtain ⟨t, ht, rfl⟩ := List.mem_map.mp htok
  have hs := splitRuns_sound _ _ t ht
  exact ⟨hs.1, fun c hc => by have := hs.2 c hc; simpa using this⟩

theorem joinSep_head?_eq (sep : Char) (t : List Char) (ts : List (List Char))
    (ht : t ≠ []) : (joinSep sep (t :: ts)).head? = t.head? := by
  cases ts with
  | nil => rfl
  | cons t2 ts2 =>
    rw [joinSep_cons_cons]
    cases t with
    | nil => exact absurd rfl ht
    | cons a l => rfl

theorem joinSep_ne_nil (sep : Char) (t : List Char) (ts : List (List Char))
    (ht : t ≠ []) : joinSep sep (t :: ts) ≠ [] := by
  cases ts with
  | nil => exact ht
  | cons t2 ts2 =>
    rw [joinSep_cons_cons]
    cases t with
    | nil => exact absurd rfl ht
    | cons a l => simp

theorem joinSep_getLast?_mem (sep : Char) :
    ∀ ts : List (List Char), ts ≠ [] → (∀ u ∈ ts, u ≠ []) →
      ∃ u ∈ ts, (joinSep sep ts).getLast? = u.getLast? := by
  intro ts
  induction ts with
  | nil =>
    intro h
    exact absurd rfl h
  | cons t ts ih =>
    intro _ hall
    cases ts with
    | nil => exact ⟨t, List.mem_cons_self _ _, rfl⟩
    | cons t2 ts2 =>
      obtain ⟨u, hu, heq⟩ := ih (by simp)
        (fun v hv => hall v (List.mem_cons_of_mem _ hv))
      refine ⟨u, List.mem_cons_of_mem _ hu, ?_⟩
      rw [joinSep_cons_cons]
      have hne : sep :: joinSep sep (t2 :: ts2) ≠ [] := by simp
      rw [List.getLast?_append_of_ne_nil _ hne]
      have hjoin : joinSep sep (t2 :: ts2) ≠ [] :=
        joinSep_ne_nil sep t2 ts2 (hall t2 (List.mem_cons_of_mem _ (List.mem_cons_self _ _)))
      calc (sep :: joinSep sep (t2 :: ts2)).getLast?
          = ([sep] ++ joinSep sep (t2 :: ts2)).getLast? := rfl
        _ = (joinSep sep (t2 :: ts2)).getLast? := List.getLast?_append_of_ne_nil _ hjoin
        _ = u.getLast? := heq

theorem mem_of_head?_eq {c : Char} {l : List Char} (h : l.head? = some c) : c ∈ l := by
  cases l with
  | nil => exact absurd h (by simp)
  | cons a l2 =>
    simp only [List.head?_cons, Option.some.injEq] at h
    rw [← h]
    exact List.mem_cons_self a l2

theorem mem_of_getLast?_eq {c : Char} {l : List Char} (h : l.getLast? = some c) : c ∈ l := by
  obtain ⟨hne, heq⟩ := List.mem_getLast?_eq_getLast (l := l) (x := c)
    (by rw [Option.mem_def]; exact h)
  rw [heq]
  exact List.getLast_mem hne

/-- For an actor name whose last-name part is non-empty (i.e. a two-or-more
token name), both halves of the split survive `strip` unchanged. -/
theorem nameSplit_strip_id (name : String)
    (hl : (RoleService.nameSplit name).2 ≠ "") :
    pyStrip (RoleService.nameSplit name).1 = (RoleService.nameSplit name).1 ∧
    pyStrip (RoleService.nameSplit name).2 = (RoleService.nameSplit name).2 := by
  unfold RoleService.nameSplit at hl ⊢
  by_cases hlen : 2 ≤ (pySplitWS (pyStrip name)).length
  · rw [if_pos hlen] at hl ⊢
    dsimp only at hl ⊢
    have hparts := pySplitWS_tokens (pyStrip name)
    have hplen : pySplitWS (pyStrip name) ≠ [] := by
      intro hcontra
      rw [hcontra] at hlen
      simp at hlen
    constructor
    · -- first name: joined tokens; head and last characters are token characters
      have hdl : (pySplitWS (pyStrip name)).dropLast ≠ [] := by
        intro hcontra
        have := congrArg List.length hcontra
        rw [List.length_dropLast] at this
        simp at this
        omega
      have htsne : (pySplitWS (pyStrip name)).dropLast.map String.data ≠ [] :=
        fun hcontra => hdl (List.map_eq_nil.mp hcontra)
      have htok : ∀ u ∈ (pySplitWS (pyStrip name)).dropLast.map String.data,
          u ≠ [] ∧ ∀ c ∈ u, isPySpace c = false := by
        intro u hu
        obtain ⟨tok, htokmem, rfl⟩ := List.mem_map.mp hu
        have hmem : tok ∈ pySplitWS (pyStrip name) :=
          (List.dropLast_sublist _).subset htokmem
        exact hparts tok hmem
      apply pyStrip_eq_self_of_ends
      · intro c hc
        simp only [String.data] at hc
        obtain ⟨u0, ts0, hts⟩ : ∃ u0 ts0,
            (pySplitWS (pyStrip name)).dropLast.map String.data = u0 :: ts0 := by
          cases hcase : (pySplitWS (pyStrip name)).dropLast.map String.data with
          | nil => exact absurd hcase htsne
          | cons u0 ts0 => exact ⟨u0, ts0, rfl⟩
        rw [hts] at hc
        have hu0 := htok u0 (hts ▸ List.mem_cons_self u0 ts0)
        rw [joinSep_head?_eq ' ' u0 ts0 hu0.1] at hc
        exact hu0.2 c (mem_of_head?_eq hc)
      · intro c hc
        obtain ⟨u, hu, heq⟩ := joinSep_getLast?_mem ' ' _ htsne
          (fun v hv => (htok v hv).1)
        rw [heq] at hc
        exact (htok u hu).2 c (mem_of_getLast?_eq hc)
    · have hmem := getLastD_mem (pySplitWS (pyStrip name)) "" hplen
      exact pyStrip_eq_self_of_no_space _
        (fun c hc => (hparts _ hmem).2 c hc)
  · rw [if_neg hlen] at hl
    exact absurd rfl hl

/-- Analysis of a successful member resolution: either an existing member
matched (store unchanged), or a new member was quick-created and appended
with stripped names. -/
theorem find_or_create_cases (d : DB) (name : String) (mem : Member) (d1 : DB)
    (h : RoleService.find_or_create_member_by_name d name = .ok (mem, d1)) :
    (d.members.find? (RoleService.memberMatches (RoleService.nameSplit name).1
        (RoleService.nameSplit name).2) = some mem ∧ d1 = d) ∨
    (d.members.find? (RoleService.memberMatches (RoleService.nameSplit name).1
        (RoleService.nameSplit name).2) = none ∧
      (RoleService.nameSplit name).1 ≠ "" ∧ (RoleService.nameSplit name).2 ≠ "" ∧
      mem.current_first_name = some (pyStrip (RoleService.nameSplit name).1) ∧
      mem.current_last_name = some (pyStrip (RoleService.nameSplit name).2) ∧
      d1.members = d.members ++ [mem] ∧ d1.roles = d.roles) := by
  unfold RoleService.find_or_create_member_by_name at h
  rcases hp : RoleService.nameSplit name with ⟨f, l⟩
  rw [hp] at h
  dsimp only at h ⊢
  cases hfind : d.members.find? (RoleService.memberMatches f l) with
  | some m =>
    rw [hfind] at h
    simp only [Except.ok.injEq, Prod.mk.injEq] at h
    exact Or.inl ⟨by rw [h.1], h.2.symm⟩
  | none =>
    rw [hfind] at h
    unfold MemberService.quick_create_member MemberService.create_member at h
    dsimp only at h
    split at h
    · exact absurd h (by simp)
    · rename_i hcond
      push_neg at hcond
      simp only [Except.ok.injEq, Prod.mk.injEq] at h
      refine Or.inr ⟨rfl, hcond.2.1, hcond.2.2, ?_, ?_, ?_, ?_⟩
      · rw [← h.1]
      · rw [← h.1]
      · rw [← h.1, ← h.2]
      · rw [← h.2]

/-- A member resolution that succeeded against store `d` resolves to the
same member — without any store change — against any later store whose
member list extends the one resolution saw (run-1's final store does). -/
theorem find_or_create_rerun (d d1 db₁ : DB) (name : String) (mem : Member)
    (hfo : RoleService.find_or_create_member_by_name d name = .ok (mem, d1))
    (hm : ∃ Δ, db₁.members = d1.members ++ Δ) :
    RoleService.find_or_create_member_by_name db₁ name = .ok (mem, db₁) := by
  obtain ⟨Δ, hΔ⟩ := hm
  unfold RoleService.find_or_create_member_by_name
  rcases hp : RoleService.nameSplit name with ⟨f, l⟩
  dsimp only
  rcases find_or_create_cases d name mem d1 hfo with
    ⟨hfind, rfl⟩ | ⟨hfind, hf, hl, hfst, hlst, hmem, -⟩
  · rw [hp] at hfind
    dsimp only at hfind
    rw [hΔ, List.find?_append, hfind]
    rfl
  · rw [hp] at hfind hf hl hfst hlst
    dsimp only at hfind hf hl hfst hlst
    have hpred : RoleService.memberMatches f l mem = true := by
      unfold RoleService.memberMatches
      rw [hfst, hlst]
      have hstrip := nameSplit_strip_id name (by rw [hp]; exact hl)
      rw [hp] at hstrip
      dsimp only at hstrip
      rw [hstrip.1, hstrip.2]
      simp [ilikeSub_self]
    rw [hΔ, hmem, List.append_assoc, List.find?_append, hfind]
    simp only [Option.none_or, List.singleton_append, List.find?_cons_of_pos _ hpred]

/- ### Fold monotonicity -/

theorem processLine_prefix (act delim : String) (c : Nat) (E : List String)
    (d : DB) (l : String) :
    (∃ ΔE, (RoleService.processLine act delim (c, E, d) l).2.1 = E ++ ΔE) ∧
    (∃ Δm, (RoleService.processLine act delim (c, E, d) l).2.2.members = d.members ++ Δm) ∧
    (∃ Δr, (RoleService.processLine act delim (c, E, d) l).2.2.roles = d.roles ++ Δr) := by
  rcases processLine_cases act delim c E d l with
    ⟨h1, heq⟩ | ⟨h1, h2, heq⟩ | ⟨err, h1, h2, h3, hf, heq⟩ |
    ⟨mem, d1, h1, h2, h3, hf, hdup, heq⟩ | ⟨mem, d1, h1, h2, h3, hf, hdup, heq⟩
  · rw [heq]
    exact ⟨⟨_, rfl⟩, ⟨[], by simp⟩, ⟨[], by simp⟩⟩
  · rw [heq]
    exact ⟨⟨_, rfl⟩, ⟨[], by simp⟩, ⟨[], by simp⟩⟩
  · rw [heq]
    exact ⟨⟨_, rfl⟩, ⟨[], by simp⟩, ⟨[], by simp⟩⟩
  · rw [heq]
    rcases find_or_create_cases d _ mem d1 hf with ⟨-, rfl⟩ | ⟨-, -, -, -, -, hmem, hrol⟩
    · exact ⟨⟨_, rfl⟩, ⟨[], by simp⟩, ⟨[], by simp⟩⟩
    · exact ⟨⟨_, rfl⟩, ⟨[mem], hmem⟩, ⟨[], by simp [hrol]⟩⟩
  · rw [heq]
    rcases find_or_create_cases d _ mem d1 hf with ⟨-, rfl⟩ | ⟨-, -, -, -, -, hmem, hrol⟩
    · exact ⟨⟨[], by simp⟩, ⟨[], by simp [RoleService.create_role]⟩,
        ⟨[⟨d1.nextRoleId, act, mem.id_member, some (pyStrip (pySplit1 l delim).1),
            none, none, none⟩], by simp [RoleService.create_role]⟩⟩
    · refine ⟨⟨[], by simp⟩, ⟨[mem], by simp [RoleService.create_role, hmem]⟩,
        ⟨[⟨d1.nextRoleId, act, mem.id_member, some (pyStrip (pySplit1 l delim).1),
            none, none, none⟩], by simp [RoleService.create_role, hrol]⟩⟩

theorem foldl_prefix (act delim : String) :
    ∀ (ls : List String) (c : Nat) (E : List String) (d : DB),
      (∃ ΔE, (ls.foldl (RoleService.processLine act delim) (c, E, d)).2.1 = E ++ ΔE) ∧
      (∃ Δm, (ls.foldl (RoleService.processLine act delim) (c, E, d)).2.2.members =
        d.members ++ Δm) ∧
      (∃ Δr, (ls.foldl (RoleService.processLine act delim) (c, E, d)).2.2.roles =
        d.roles ++ Δr) := by
  intro ls
  induction ls with
  | nil =>
    intro c E d
    exact ⟨⟨[], by simp⟩, ⟨[], by simp⟩, ⟨[], by simp⟩⟩
  | cons l ls ih =>
    intro c E d
    rw [List.foldl_cons]
    rcases hp : RoleService.processLine act delim (c, E, d) l with ⟨c₀, E₀, d₀⟩
    have hstep := processLine_prefix act delim c E d l
    rw [hp] at hstep
    obtain ⟨⟨ΔE, hE⟩, ⟨Δm, hM⟩, ⟨Δr, hR⟩⟩ := hstep
    obtain ⟨⟨ΔE', hE'⟩, ⟨Δm', hM'⟩, ⟨Δr', hR'⟩⟩ := ih c₀ E₀ d₀
    dsimp only at hE hM hR
    refine ⟨⟨ΔE ++ ΔE', ?_⟩, ⟨Δm ++ Δm', ?_⟩, ⟨Δr ++ Δr', ?_⟩⟩
    · rw [hE', hE, List.append_assoc]
    · rw [hM', hM, List.append_assoc]
    · rw [hR', hR, List.append_assoc]

/- ### Re-running the parser against the final store -/

/-- Core induction for C5: if a run over `ls` from state `(c, E, d)` ends in
`(n, E₁, db₁)` and none of the final messages is a caught-exception message,
then re-running the same lines against `db₁` creates nothing, changes
nothing, and appends exactly one message per line — the line's `rerunMsg` —
and the `Already exists` messages of the re-run count the run's created
roles plus its own `Already exists` messages. -/
theorem rerun_aux (act delim : String) :
    ∀ (ls : List String) (c : Nat) (E : List String) (d : DB)
      (n : Nat) (E₁ : List String) (db₁ : DB),
      ls.foldl (RoleService.processLine act delim) (c, E, d) = (n, E₁, db₁) →
      (∀ m ∈ E₁, RoleService.isErrorMsg m = false) →
      (∀ A, ls.foldl (RoleService.processLine act delim) (0, A, db₁) =
        (0, A ++ ls.map (RoleService.rerunMsg delim), db₁)) ∧
      ((ls.map (RoleService.rerunMsg delim)).filter RoleService.isAlreadyMsg).length + c +
        (E.filter RoleService.isAlreadyMsg).length =
        n + (E₁.filter RoleService.isAlreadyMsg).length := by
  intro ls
  induction ls with
  | nil =>
    intro c E d n E₁ db₁ hfold hnoerr
    simp only [List.foldl_nil] at hfold
    obtain ⟨rfl, rfl, rfl⟩ : c = n ∧ E = E₁ ∧ d = db₁ := by
      refine ⟨congrArg (·.1) hfold, ?_, ?_⟩
      · have := congrArg (·.2.1) hfold
        simpa using this
      · have := congrArg (·.2.2) hfold
        simpa using this
    exact ⟨fun A => by simp, by simp⟩
  | cons l ls ih =>
    intro c E d n E₁ db₁ hfold hnoerr
    rw [List.foldl_cons] at hfold
    have happend : ∀ (msg : String) (d₀ : DB),
        RoleService.processLine act delim (c, E, d) l = (c, E ++ [msg], d₀) →
        RoleService.processLine act delim (c, E, d) l = (c, E ++ [msg], d₀) →
        msg ∈ E₁ := by
      intro msg d₀ hstep _
      rw [hstep] at hfold
      obtain ⟨⟨ΔE, hE⟩, -, -⟩ := foldl_prefix act delim ls c (E ++ [msg]) d₀
      rw [hfold] at hE
      dsimp only at hE
      rw [hE]
      exact List.mem_append.mpr (Or.inl
        (List.mem_append.mpr (Or.inr (List.mem_singleton.mpr rfl))))
    rcases processLine_cases act delim c E d l with
      ⟨h1, heq⟩ | ⟨h1, h2, heq⟩ | ⟨err, h1, h2, h3, hf, heq⟩ |
      ⟨mem, d1, h1, h2, h3, hf, hdup, heq⟩ | ⟨mem, d1, h1, h2, h3, hf, hdup, heq⟩
    · -- skipped: no delimiter
      rw [heq] at hfold
      obtain ⟨hrest, hcount⟩ := ih c (E ++ [RoleService.noDelimMsg l]) d n E₁ db₁ hfold hnoerr
      constructor
      · intro A
        rw [List.foldl_cons, processLine_noDelim act delim 0 A db₁ l h1, hrest,
          List.map_cons, rerunMsg_noDelim delim l h1]
        simp
      · rw [List.map_cons, rerunMsg_noDelim delim l h1]
        have hmsg := isAlreadyMsg_noDelimMsg l
        have hEfix : ((E ++ [RoleService.noDelimMsg l]).filter
            RoleService.isAlreadyMsg).length =
            (E.filter RoleService.isAlreadyMsg).length := by
          simp [List.filter_append, hmsg]
        rw [hEfix] at hcount
        simp only [List.filter_cons, hmsg, Bool.false_eq_true, if_false]
        omega
    · -- skipped: empty field
      rw [heq] at hfold
      obtain ⟨hrest, hcount⟩ := ih c (E ++ [RoleService.emptyFieldMsg l]) d n E₁ db₁ hfold hnoerr
      constructor
      · intro A
        rw [List.foldl_cons, processLine_emptyField act delim 0 A db₁ l h1 h2, hrest,
          List.map_cons, rerunMsg_emptyField delim l h1 h2]
        simp
      · rw [List.map_cons, rerunMsg_emptyField delim l h1 h2]
        have hmsg := isAlreadyMsg_emptyFieldMsg l
        have hEfix : ((E ++ [RoleService.emptyFieldMsg l]).filter
            RoleService.isAlreadyMsg).length =
            (E.filter RoleService.isAlreadyMsg).length := by
          simp [List.filter_append, hmsg]
        rw [hEfix] at hcount
        simp only [List.filter_cons, hmsg, Bool.false_eq_true, if_false]
        omega
    · -- caught exception: excluded by the no-error hypothesis
      exfalso
      have hmem := happend (RoleService.lineErrorMsg l err) d heq heq
      have := hnoerr _ hmem
      rw [isErrorMsg_lineErrorMsg] at this
      exact Bool.true_eq_false ▸ this
    · -- duplicate
      rw [heq] at hfold
      obtain ⟨hrest, hcount⟩ := ih c (E ++ [RoleService.alreadyMsg
        (pyStrip (pySplit1 l delim).1) (pyStrip (pySplit1 l delim).2)]) d1 n E₁ db₁
        hfold hnoerr
      obtain ⟨-, ⟨Δm, hΔm⟩, ⟨Δr, hΔr⟩⟩ := foldl_prefix act delim ls c
        (E ++ [RoleService.alreadyMsg (pyStrip (pySplit1 l delim).1)
          (pyStrip (pySplit1 l delim).2)]) d1
      rw [hfold] at hΔm hΔr
      dsimp only at hΔm hΔr
      have hfo2 := find_or_create_rerun d d1 db₁ (pyStrip (pySplit1 l delim).2) mem hf
        ⟨Δm, hΔm⟩
      have hdup2 : (db₁.roles.find? (RoleService.roleKeyMatches act mem.id_member
          (pyStrip (pySplit1 l delim).1))).isSome = true := by
        rw [hΔr, List.find?_append]
        rw [Option.isSome_iff_exists] at hdup
        obtain ⟨r, hr⟩ := hdup
        rw [hr]
        simp
      constructor
      · intro A
        rw [List.foldl_cons,
          processLine_already act delim 0 A db₁ l mem h1 h2 h3 hfo2 hdup2, hrest,
          List.map_cons, rerunMsg_already delim l h1 h2 h3]
        simp
      · rw [List.map_cons, rerunMsg_already delim l h1 h2 h3]
        have hmsg := isAlreadyMsg_alreadyMsg (pyStrip (pySplit1 l delim).1)
          (pyStrip (pySplit1 l delim).2)
        have hEfix : ((E ++ [RoleService.alreadyMsg (pyStrip (pySplit1 l delim).1)
            (pyStrip (pySplit1 l delim).2)]).filter RoleService.isAlreadyMsg).length =
            (E.filter RoleService.isAlreadyMsg).length + 1 := by
          simp [List.filter_append, hmsg]
        rw [hEfix] at hcount
        simp only [List.filter_cons, hmsg, if_pos, List.length_cons]
        omega
    · -- created in the first run: a duplicate in the re-run
      rw [heq] at hfold
      obtain ⟨hrest, hcount⟩ := ih (c + 1) E
        (RoleService.create_role d1 act mem.id_member
          (some (pyStrip (pySplit1 l delim).1)) none none none).2 n E₁ db₁ hfold hnoerr
      obtain ⟨-, ⟨Δm, hΔm⟩, ⟨Δr, hΔr⟩⟩ := foldl_prefix act delim ls (c + 1) E
        (RoleService.create_role d1 act mem.id_member
          (some (pyStrip (pySplit1 l delim).1)) none none none).2
      rw [hfold] at hΔm hΔr
      dsimp only at hΔm hΔr
      have hcr_members : (RoleService.create_role d1 act mem.id_member
          (some (pyStrip (pySplit1 l delim).1)) none none none).2.members = d1.members := rfl
      have hcr_roles : (RoleService.create_role d1 act mem.id_member
          (some (pyStrip (pySplit1 l delim).1)) none none none).2.roles =
          d1.roles ++ [⟨d1.nextRoleId, act, mem.id_member,
            some (pyStrip (pySplit1 l delim).1), none, none, none⟩] := rfl
      have hfo2 := find_or_create_rerun d d1 db₁ (pyStrip (pySplit1 l delim).2) mem hf
        ⟨Δm, by rw [hΔm, hcr_members]⟩
      have hdup2 : (db₁.roles.find? (RoleService.roleKeyMatches act mem.id_member
          (pyStrip (pySplit1 l delim).1))).isSome = true := by
        rw [hΔr, hcr_roles, List.append_assoc, List.find?_append]
        have hnone : d1.roles.find? (RoleService.roleKeyMatches act mem.id_member
            (pyStrip (pySplit1 l delim).1)) = none := by
          rw [← Option.not_isSome_iff_eq_none, hdup]
          simp
        rw [hnone]
        have hkey : RoleService.roleKeyMatches act mem.id_member
            (pyStrip (pySplit1 l delim).1)
            ⟨d1.nextRoleId, act, mem.id_member,
              some (pyStrip (pySplit1 l delim).1), none, none, none⟩ = true := by
          unfold RoleService.roleKeyMatches
          simp
        simp only [Option.none_or, List.singleton_append, List.find?_cons_of_pos _ hkey]
        simp
      constructor
      · intro A
        rw [List.foldl_cons,
          processLine_already act delim 0 A db₁ l mem h1 h2 h3 hfo2 hdup2, hrest,
          List.map_cons, rerunMsg_already delim l h1 h2 h3]
        simp
      · rw [List.map_cons, rerunMsg_already delim l h1 h2 h3]
        have hmsg := isAlreadyMsg_alreadyMsg (pyStrip (pySplit1 l delim).1)
          (pyStrip (pySplit1 l delim).2)
        simp only [List.filter_cons, hmsg, if_pos, List.length_cons]
        omega

/-- C5 (counterexample): re-running the same program text does not always
create 0 roles.  On the text "R – Ann\nS – Ann Smith" against an empty
store, the first run creates 1 role (the line "R – Ann" raises inside member
creation and is recorded as a per-line error), and the second run creates
1 further role: on the re-run the single-token name "Ann" now fuzzy-matches
the member "Ann Smith" created by the later line of the first run. -/
theorem C5_counterexample :
    (RoleService.bulk_create_from_text emptyDB "a1" "R – Ann\nS – Ann Smith" "–").1 = 1 ∧
    (RoleService.bulk_create_from_text
        (RoleService.bulk_create_from_text emptyDB "a1" "R – Ann\nS – Ann Smith" "–").2.2
        "a1" "R – Ann\nS – Ann Smith" "–").1 = 1 ∧
    (RoleService.bulk_create_from_text
        (RoleService.bulk_create_from_text emptyDB "a1" "R – Ann\nS – Ann Smith" "–").2.2
        "a1" "R – Ann\nS – Ann Smith" "–").1 ≠ 0 := by
  refine ⟨by decide, by decide, by decide⟩

/-- C5 (amended): after a first run none of whose recorded messages is a
caught-exception ("Error processing '…") message, re-running the same
program text against the same activity creates 0 new roles, leaves the
store exactly unchanged, and reports one message per non-blank line — the
same skip message for unparseable lines and an "Already exists" message for
every parseable line; the number of "Already exists" messages in the re-run
equals the first run's created count (one per previously created role) plus
the first run's own "Already exists" count.  Duplicate detection is keyed
exactly on (activity id, resolved member id, exact role-name string), as
`roleKeyMatches` states. -/
theorem C5_rerun_reports_duplicates (db : DB) (act text delim : String) (n : Nat)
    (E₁ : List String) (db₁ : DB)
    (hrun : RoleService.bulk_create_from_text db act text delim = (n, E₁, db₁))
    (hnoerr : ∀ m ∈ E₁, RoleService.isErrorMsg m = false) :
    RoleService.bulk_create_from_text db₁ act text delim =
      (0, (RoleService.bulkLines text).map (RoleService.rerunMsg delim), db₁) ∧
    (((RoleService.bulkLines text).map (RoleService.rerunMsg delim)).filter
        RoleService.isAlreadyMsg).length =
      n + (E₁.filter RoleService.isAlreadyMsg).length ∧
    n + E₁.length = (RoleService.bulkLines text).length := by
  have hfold : (RoleService.bulkLines text).foldl
      (RoleService.processLine act delim) (0, [], db) = (n, E₁, db₁) := hrun
  obtain ⟨hrest, hcount⟩ := rerun_aux act delim (RoleService.bulkLines text)
    0 [] db n E₁ db₁ hfold hnoerr
  refine ⟨?_, ?_, ?_⟩
  · have h := hrest []
    unfold RoleService.bulk_create_from_text
    simpa using h
  · simpa using hcount
  · have h := bulk_count_aux act delim (RoleService.bulkLines text) 0 [] db
    rw [hfold] at h
    simpa using h

/-- C5 (witness): the amended theorem applied to the spec's own three-line
program text — whose first run records only the one (non-exception) skip
message — showing the second run creates 0 roles, leaves the store as it
was, and reports 2 "Already exists" messages plus the same skip message. -/
theorem C5_rerun_reports_duplicates_witness :
    (∀ m ∈ (RoleService.bulk_create_from_text emptyDB "act1"
        "Director – John Doe\nHamlet – Jane Smith\nNotADelimiterLine" "–").2.1,
      RoleService.isErrorMsg m = false) ∧
    (RoleService.bulk_create_from_text
        (RoleService.bulk_create_from_text emptyDB "act1"
          "Director – John Doe\nHamlet – Jane Smith\nNotADelimiterLine" "–").2.2
        "act1" "Director – John Doe\nHamlet – Jane Smith\nNotADelimiterLine" "–" =
      (0, (RoleService.bulkLines
            "Director – John Doe\nHamlet – Jane Smith\nNotADelimiterLine").map
          (RoleService.rerunMsg "–"),
       (RoleService.bulk_create_from_text emptyDB "act1"
          "Director – John Doe\nHamlet – Jane Smith\nNotADelimiterLine" "–").2.2) ∧
     (((RoleService.bulkLines
          "Director – John Doe\nHamlet – Jane Smith\nNotADelimiterLine").map
        (RoleService.rerunMsg "–")).filter RoleService.isAlreadyMsg).length =
       (RoleService.bulk_create_from_text emptyDB "act1"
          "Director – John Doe\nHamlet – Jane Smith\nNotADelimiterLine" "–").1 +
       (((RoleService.bulk_create_from_text emptyDB "act1"
          "Director – John Doe\nHamlet – Jane Smith\nNotADelimiterLine" "–").2.1).filter
         RoleService.isAlreadyMsg).length ∧
     (RoleService.bulk_create_from_text emptyDB "act1"
        "Director – John Doe\nHamlet – Jane Smith\nNotADelimiterLine" "–").1 +
       (RoleService.bulk_create_from_text emptyDB "act1"
        "Director – John Doe\nHamlet – Jane Smith\nNotADelimiterLine" "–").2.1.length =
       (RoleService.bulkLines
          "Director – John Doe\nHamlet – Jane Smith\nNotADelimiterLine").length) :=
  ⟨by decide,
   C5_rerun_reports_duplicates emptyDB "act1"
     "Director – John Doe\nHamlet – Jane Smith\nNotADelimiterLine" "–" _ _ _ rfl
     (by decide)⟩

/-- C1 (code bug): contrary to the spec's partial-update contract — and to
`update_member`'s own "Partial update" docstring — the UPDATE statement
issued by `MemberService.update_member` lists every column, so a call that
provides only the first name overwrites the stored last name, birth date,
GDPR flag and notes with NULL instead of leaving them untouched. -/
theorem C1_update_member_overwrites_unprovided_fields :
    (MemberService.update_member
        { emptyDB with members := [⟨"m1", some "Jo", some "Doe", some 5, some 1, some "memo"⟩] }
        "m1" (some "Joanna") none none none none).2.members =
      [⟨"m1", some "Joanna", none, none, none, none⟩] := by
  decide

/-- C10 (counterexample): `RoleService.update_role` is a partial-update
operation on Role, yet a call providing no optional field does *not* return
an absent result when the id exists — it returns the (unmodified) record. -/
theorem C10_counterexample :
    (RoleService.update_role
        { emptyDB with roles := [⟨1, "a1", "m1", some "Hamlet", none, none, none⟩] }
        1 none none none none).1 ≠ none := by
  decide

/-- C10 (amended): for the `values`-dict partial updates
(`ActivityService.update_activity`, `ActivityService.update_role`,
`MediaService.update_media_item`, `MediaService.update_media_appearance`) a
call providing no optional field returns an absent result and performs no
write at all, even when the record exists; `RoleService.update_role`,
however, returns the found record (absent only when the id is missing). -/
theorem C10_no_field_update_is_noop (db : DB) (id_a : String) (id_n : Nat) :
    ActivityService.update_activity db id_a none none none none none none none none none
      = (none, db) ∧
    ActivityService.update_role db id_n none none none none = (none, db) ∧
    MediaService.update_media_item db id_n none none none none none none none none
      = (none, db) ∧
    MediaService.update_media_appearance db id_n none none none none = (none, db) ∧
    (RoleService.update_role db id_n none none none none).1
      = db.roles.find? (fun r => r.id_role == id_n) := by
  refine ⟨?_, ?_, ?_, ?_, ?_⟩
  · simp [ActivityService.update_activity]
  · simp [ActivityService.update_role]
  · simp [MediaService.update_media_item]
  · simp [MediaService.update_media_appearance]
  · unfold RoleService.update_role
    cases h : db.roles.find? (fun r => r.id_role == id_n) with
    | none => simp
    | some r => simp

/-- C2 (counterexample): with a missing source file, `move_and_rename_media`
returns false without raising but is *not* a filesystem no-op: the
destination directory has already been created by the `mkdir` that precedes
the source-existence check. -/
theorem C2_counterexample :
    (move_and_rename_media ⟨[], []⟩
        [⟨"a1", "Gala", "Uitvoering", none, none, some 2024, none, none, some "2024-gala", none⟩]
        ⟨1, "a1", "img001.JPG", "foto", none, none, none, some "Opening Night!", none, 0⟩
        "res" false).1 = false ∧
    (move_and_rename_media ⟨[], []⟩
        [⟨"a1", "Gala", "Uitvoering", none, none, some 2024, none, none, some "2024-gala", none⟩]
        ⟨1, "a1", "img001.JPG", "foto", none, none, none, some "Opening Night!", none, 0⟩
        "res" false).2.1 ≠ (⟨[], []⟩ : FS) := by
  constructor <;> decide

/-- C2 (amended): every precondition violation and the
destination-collision case of `move_and_rename_media` returns false, raises
nothing, and leaves the files and the MediaItem record unchanged; for the
empty-filename and missing/folderless-activity violations the filesystem is
fully untouched, while for a missing source or an unoverwritable existing
destination the destination directory has already been created (the `mkdir`
precedes those two checks), which is the only filesystem change. -/
theorem C2_failure_is_noop (fs : FS) (activities : List Activity)
    (item : MediaItem) (base : String) (ov : Bool) :
    (item.filename = "" →
      move_and_rename_media fs activities item base ov = (false, fs, item)) ∧
    (activities.find? (fun a => a.id_activity == item.id_activity) = none →
      move_and_rename_media fs activities item base ov = (false, fs, item)) ∧
    (∀ act, activities.find? (fun a => a.id_activity == item.id_activity) = some act →
      (act.folder = none ∨ act.folder = some "") →
      move_and_rename_media fs activities item base ov = (false, fs, item)) ∧
    (∀ act f, activities.find? (fun a => a.id_activity == item.id_activity) = some act →
      act.folder = some f → f ≠ "" → item.filename ≠ "" →
      joinPath "uploads" item.filename ∉ fs.files →
      move_and_rename_media fs activities item base ov =
        (false,
         fs.mkdirP (joinPath (joinPath base f)
           (if item.type_media = "" then "overig" else item.type_media)),
         item)) ∧
    (∀ act f, activities.find? (fun a => a.id_activity == item.id_activity) = some act →
      act.folder = some f → f ≠ "" → item.filename ≠ "" →
      joinPath "uploads" item.filename ∈ fs.files →
      joinPath (joinPath (joinPath base f)
          (if item.type_media = "" then "overig" else item.type_media))
        (slugify (match item.caption with
           | some c => if c = "" then pathStem item.filename else c
           | none => pathStem item.filename) ++
         (if lowerStr (pathSuffix item.filename) = "" then ".jpg"
          else lowerStr (pathSuffix item.filename))) ∈ fs.files →
      ov = false →
      move_and_rename_media fs activities item base ov =
        (false,
         fs.mkdirP (joinPath (joinPath base f)
           (if item.type_media = "" then "overig" else item.type_media)),
         item)) := by
  refine ⟨?_, ?_, ?_, ?_, ?_⟩
  · intro h
    unfold move_and_rename_media
    rw [if_pos h]
  · intro h
    unfold move_and_rename_media
    rw [h]
    split <;> rfl
  · intro act hact hfold
    unfold move_and_rename_media
    rcases hfold with h | h <;> simp only [hact, h] <;> split <;> rfl
  · intro act f hact hfold hf hfn hsrc
    unfold move_and_rename_media
    simp only [hact, hfold, if_neg hfn, if_neg hf, FS.mkdirP_files]
    rw [if_pos hsrc]
  · intro act f hact hfold hf hfn hsrc htgt hov
    subst hov
    unfold move_and_rename_media
    simp only [hact, hfold, if_neg hfn, if_neg hf, FS.mkdirP_files]
    rw [if_neg (not_not_intro hsrc), if_pos ⟨htgt, by simp⟩]

/-- C2 (witness): the amended failure behaviour at concrete inputs — a
missing source yields `(false, directory-created-only, item)`. -/
theorem C2_failure_is_noop_witness :
    ((joinPath "uploads" "img001.JPG" ∉ (⟨[], []⟩ : FS).files) ∧
     move_and_rename_media ⟨[], []⟩
        [⟨"a1", "Gala", "Uitvoering", none, none, some 2024, none, none, some "2024-gala", none⟩]
        ⟨1, "a1", "img001.JPG", "foto", none, none, none, some "Opening Night!", none, 0⟩
        "res" false =
      (false, FS.mkdirP ⟨[], []⟩ (joinPath (joinPath "res" "2024-gala") "foto"),
       ⟨1, "a1", "img001.JPG", "foto", none, none, none, some "Opening Night!", none, 0⟩)) :=
  ⟨by decide,
   (C2_failure_is_noop ⟨[], []⟩
      [⟨"a1", "Gala", "Uitvoering", none, none, some 2024, none, none, some "2024-gala", none⟩]
      ⟨1, "a1", "img001.JPG", "foto", none, none, none, some "Opening Night!", none, 0⟩
      "res" false).2.2.2.1
     ⟨"a1", "Gala", "Uitvoering", none, none, some 2024, none, none, some "2024-gala", none⟩
     "2024-gala" (by decide) (by decide) (by decide) (by decide) (by decide)⟩

/-- C3: successful finalization moves the file to
`<resourcesRoot>/<activity.folder>/<mediaType or "overig">/<name>.<ext>`,
where the name slugifies the caption when one is present (non-empty) and
otherwise the original filename's stem, and the extension is the original
extension lowercased or `.jpg` when there is none; the MediaItem's filename
becomes the new name and its storage path the destination relative to the
resources root.  The final conjunct is the spec's concrete instance:
caption "Opening Night!", filename "img001.JPG", folder "2024-gala". -/
theorem C3_finalize_success (fs : FS) (activities : List Activity)
    (item : MediaItem) (base : String) (ov : Bool) (act : Activity) (f : String)
    (hact : activities.find? (fun a => a.id_activity == item.id_activity) = some act)
    (hfold : act.folder = some f) (hf : f ≠ "") (hfn : item.filename ≠ "")
    (hsrc : joinPath "uploads" item.filename ∈ fs.files)
    (hclob :
      joinPath (joinPath (joinPath base f)
          (if item.type_media = "" then "overig" else item.type_media))
        (slugify (match item.caption with
           | some c => if c = "" then pathStem item.filename else c
           | none => pathStem item.filename) ++
         (if lowerStr (pathSuffix item.filename) = "" then ".jpg"
          else lowerStr (pathSuffix item.filename))) ∉ fs.files ∨ ov = true) :
    (move_and_rename_media fs activities item base ov).1 = true ∧
    (move_and_rename_media fs activities item base ov).2.2 =
      { item with
        filename :=
          slugify (match item.caption with
            | some c => if c = "" then pathStem item.filename else c
            | none => pathStem item.filename) ++
          (if lowerStr (pathSuffix item.filename) = "" then ".jpg"
           else lowerStr (pathSuffix item.filename))
        storage_path := some (joinPath
          (joinPath f (if item.type_media = "" then "overig" else item.type_media))
          (slugify (match item.caption with
             | some c => if c = "" then pathStem item.filename else c
             | none => pathStem item.filename) ++
           (if lowerStr (pathSuffix item.filename) = "" then ".jpg"
            else lowerStr (pathSuffix item.filename)))) } ∧
    (joinPath "uploads/thumbnails" item.filename ≠
        joinPath (joinPath (joinPath base f)
            (if item.type_media = "" then "overig" else item.type_media))
          (slugify (match item.caption with
             | some c => if c = "" then pathStem item.filename else c
             | none => pathStem item.filename) ++
           (if lowerStr (pathSuffix item.filename) = "" then ".jpg"
            else lowerStr (pathSuffix item.filename))) →
      joinPath (joinPath (joinPath base f)
          (if item.type_media = "" then "overig" else item.type_media))
        (slugify (match item.caption with
           | some c => if c = "" then pathStem item.filename else c
           | none => pathStem item.filename) ++
         (if lowerStr (pathSuffix item.filename) = "" then ".jpg"
          else lowerStr (pathSuffix item.filename)))
        ∈ (move_and_rename_media fs activities item base ov).2.1.files) ∧
    (fs.files.Nodup →
      joinPath "uploads" item.filename ≠
        joinPath (joinPath (joinPath base f)
            (if item.type_media = "" then "overig" else item.type_media))
          (slugify (match item.caption with
             | some c => if c = "" then pathStem item.filename else c
             | none => pathStem item.filename) ++
           (if lowerStr (pathSuffix item.filename) = "" then ".jpg"
            else lowerStr (pathSuffix item.filename))) →
      joinPath "uploads" item.filename ≠
        joinPath (joinPath (joinPath (joinPath base f)
            (if item.type_media = "" then "overig" else item.type_media)) "thumbnails")
          (slugify (match item.caption with
             | some c => if c = "" then pathStem item.filename else c
             | none => pathStem item.filename) ++
           (if lowerStr (pathSuffix item.filename) = "" then ".jpg"
            else lowerStr (pathSuffix item.filename))) →
      joinPath "uploads" item.filename ∉
        (move_and_rename_media fs activities item base ov).2.1.files) ∧
    move_and_rename_media ⟨["uploads/img001.JPG"], []⟩
        [⟨"a1", "Gala", "Uitvoering", none, none, some 2024, none, none, some "2024-gala", none⟩]
        ⟨1, "a1", "img001.JPG", "foto", none, none, none, some "Opening Night!", none, 0⟩
        "res" false =
      (true, ⟨["res/2024-gala/foto/opening-night.jpg"], ["res/2024-gala/foto"]⟩,
       ⟨1, "a1", "opening-night.jpg", "foto", none,
        some "2024-gala/foto/opening-night.jpg", none, some "Opening Night!", none, 0⟩) := by
  have hres : move_and_rename_media fs activities item base ov =
      (true,
       if joinPath "uploads/thumbnails" item.filename ∈
           ((fs.mkdirP (joinPath (joinPath base f)
             (if item.type_media = "" then "overig" else item.type_media))).rename
             (joinPath "uploads" item.filename)
             (joinPath (joinPath (joinPath base f)
               (if item.type_media = "" then "overig" else item.type_media))
               (slugify (match item.caption with
                  | some c => if c = "" then pathStem item.filename else c
                  | none => pathStem item.filename) ++
                (if lowerStr (pathSuffix item.filename) = "" then ".jpg"
                 else lowerStr (pathSuffix item.filename))))).files then
         (((fs.mkdirP (joinPath (joinPath base f)
             (if item.type_media = "" then "overig" else item.type_media))).rename
             (joinPath "uploads" item.filename)
             (joinPath (joinPath (joinPath base f)
               (if item.type_media = "" then "overig" else item.type_media))
               (slugify (match item.caption with
                  | some c => if c = "" then pathStem item.filename else c
                  | none => pathStem item.filename) ++
                (if lowerStr (pathSuffix item.filename) = "" then ".jpg"
                 else lowerStr (pathSuffix item.filename))))).mkdirP
            (joinPath (joinPath (joinPath base f)
              (if item.type_media = "" then "overig" else item.type_media)) "thumbnails")).rename
           (joinPath "uploads/thumbnails" item.filename)
           (joinPath (joinPath (joinPath (joinPath base f)
             (if item.type_media = "" then "overig" else item.type_media)) "thumbnails")
             (slugify (match item.caption with
                | some c => if c = "" then pathStem item.filename else c
                | none => pathStem item.filename) ++
              (if lowerStr (pathSuffix item.filename) = "" then ".jpg"
               else lowerStr (pathSuffix item.filename))))
       else
         (fs.mkdirP (joinPath (joinPath base f)
           (if item.type_media = "" then "overig" else item.type_media))).rename
           (joinPath "uploads" item.filename)
           (joinPath (joinPath (joinPath base f)
             (if item.type_media = "" then "overig" else item.type_media))
             (slugify (match item.caption with
                | some c => if c = "" then pathStem item.filename else c
                | none => pathStem item.filename) ++
              (if lowerStr (pathSuffix item.filename) = "" then ".jpg"
               else lowerStr (pathSuffix item.filename)))),
       { item with
         filename :=
           slugify (match item.caption with
             | some c => if c = "" then pathStem item.filename else c
             | none => pathStem item.filename) ++
           (if lowerStr (pathSuffix item.filename) = "" then ".jpg"
            else lowerStr (pathSuffix item.filename))
         storage_path := some (relativeTo base
           (joinPath (joinPath (joinPath base f)
             (if item.type_media = "" then "overig" else item.type_media))
             (slugify (match item.caption with
                | some c => if c = "" then pathStem item.filename else c
                | none => pathStem item.filename) ++
              (if lowerStr (pathSuffix item.filename) = "" then ".jpg"
               else lowerStr (pathSuffix item.filename))))) }) := by
    unfold move_and_rename_media
    simp only [hact, hfold, if_neg hfn, if_neg hf, FS.mkdirP_files]
    rw [if_neg (not_not_intro hsrc)]
    rw [if_neg (by
      rintro ⟨h1, h2⟩
      rcases hclob with h | h
      · exact h h1
      · rw [h] at h2; exact h2 rfl)]
  set nf := slugify (match item.caption with
      | some c => if c = "" then pathStem item.filename else c
      | none => pathStem item.filename) ++
    (if lowerStr (pathSuffix item.filename) = "" then ".jpg"
     else lowerStr (pathSuffix item.filename)) with hnf
  set sub := (if item.type_media = "" then "overig" else item.type_media) with hsub
  refine ⟨by rw [hres], ?_, ?_, ?_, by decide⟩
  · rw [hres]
    have hrel : relativeTo base (joinPath (joinPath (joinPath base f) sub) nf) =
        joinPath (joinPath f sub) nf := by
      rw [joinPath_assoc base f, joinPath_assoc base, relativeTo_joinPath]
    rw [hrel]
  · intro hnt
    rw [hres]
    dsimp only
    split
    · simp only [FS.rename, FS.mkdirP_files]
      exact List.mem_cons_of_mem _
        ((List.mem_erase_of_ne hnt.symm).mpr (List.mem_cons_self _ _))
    · simp only [FS.rename, FS.mkdirP_files]
      exact List.mem_cons_self _ _
  · intro hnd hneq1 hneq2
    rw [hres]
    dsimp only
    split
    · simp only [FS.rename, FS.mkdirP_files]
      intro hmem
      rcases List.mem_cons.mp hmem with h | h
      · exact hneq2 h
      · have hm2 := List.mem_of_mem_erase h
        rcases List.mem_cons.mp hm2 with h2 | h2
        · exact hneq1 h2
        · exact ((hnd.mem_erase_iff).mp h2).1 rfl
    · simp only [FS.rename, FS.mkdirP_files]
      intro hmem
      rcases List.mem_cons.mp hmem with h | h
      · exact hneq1 h
      · exact ((hnd.mem_erase_iff).mp h).1 rfl

/-- C3 (witness): the success theorem applied at the spec's concrete
instance. -/
theorem C3_finalize_success_witness :
    ((⟨"a1", "Gala", "Uitvoering", none, none, some 2024, none, none, some "2024-gala",
        none⟩ : Activity).folder = some "2024-gala" ∧
     joinPath "uploads" "img001.JPG" ∈ (⟨["uploads/img001.JPG"], []⟩ : FS).files) ∧
    (move_and_rename_media ⟨["uploads/img001.JPG"], []⟩
        [⟨"a1", "Gala", "Uitvoering", none, none, some 2024, none, none, some "2024-gala", none⟩]
        ⟨1, "a1", "img001.JPG", "foto", none, none, none, some "Opening Night!", none, 0⟩
        "res" false).1 = true :=
  ⟨⟨by decide, by decide⟩,
   (C3_finalize_success ⟨["uploads/img001.JPG"], []⟩
      [⟨"a1", "Gala", "Uitvoering", none, none, some 2024, none, none, some "2024-gala", none⟩]
      ⟨1, "a1", "img001.JPG", "foto", none, none, none, some "Opening Night!", none, 0⟩
      "res" false
      ⟨"a1", "Gala", "Uitvoering", none, none, some 2024, none, none, some "2024-gala", none⟩
      "2024-gala" (by decide) (by decide) (by decide) (by decide) (by decide)
      (Or.inl (by decide))).1⟩

theorem create_media_appearance_no_row (db : DB) (id_media : Nat) (id_member : String)
    (id_role : Option Nat) (ctx : Option String) (ord : Int) (notes : Option String) :
    ∃ e, MediaService.create_media_appearance db id_media id_member id_role ctx ord notes
      = (.error e, db) := by
  unfold MediaService.create_media_appearance
  cases hm : db.mediaItems.find? (fun m => m.id_media == id_media) with
  | none => exact ⟨_, rfl⟩
  | some media =>
    cases hmem : db.members.find? (fun m => m.id_member == id_member) with
    | none => exact ⟨_, rfl⟩
    | some mem =>
      cases id_role with
      | none => exact ⟨_, rfl⟩
      | some rid =>
        by_cases h0 : rid = 0
        · subst h0
          exact ⟨_, rfl⟩
        · cases hr : db.roles.find? (fun r => r.id_role == rid) with
          | none =>
            simp only [if_neg h0, hr]
            exact ⟨_, rfl⟩
          | some role =>
            by_cases hact : role.id_activity ≠ media.id_activity
            · simp only [if_neg h0, hr, if_pos hact]
              exact ⟨_, rfl⟩
            · simp only [if_neg h0, hr, if_neg hact]
              exact ⟨_, rfl⟩

theorem create_media_appearance_flush_fails (db : DB) (id_media : Nat)
    (id_member : String) (id_role : Option Nat) (ctx : Option String) (ord : Int)
    (notes : Option String) (media : MediaItem)
    (hmedia : db.mediaItems.find? (fun m => m.id_media == id_media) = some media)
    (hmem : db.members.find? (fun m => m.id_member == id_member) ≠ none)
    (hrole : id_role = none ∨ id_role = some 0 ∨
      ∃ rid role, id_role = some rid ∧
        db.roles.find? (fun r => r.id_role == rid) = some role ∧
        role.id_activity = media.id_activity) :
    MediaService.create_media_appearance db id_media id_member id_role ctx ord notes
      = (.error
          "IntegrityError: NOT NULL constraint failed: media_appearance.id_activity",
         db) := by
  unfold MediaService.create_media_appearance
  rw [hmedia]
  cases hm : db.members.find? (fun m => m.id_member == id_member) with
  | none => exact absurd hm hmem
  | some mem =>
    rcases hrole with h | h | ⟨rid, role, hrid, hfind, hact⟩
    · subst h
      rfl
    · subst h
      rfl
    · subst hrid
      by_cases h0 : rid = 0
      · subst h0
        rfl
      · simp only [if_neg h0, hfind,
          if_neg (fun hc : role.id_activity ≠ media.id_activity => hc hact)]

theorem create_media_appearance_cross_activity (db : DB) (id_media : Nat)
    (id_member : String) (id_role : Option Nat) (ctx : Option String) (ord : Int)
    (notes : Option String) (rid : Nat) (role : Role) (media : MediaItem)
    (hrid : id_role = some rid) (hne : rid ≠ 0)
    (hmedia : db.mediaItems.find? (fun m => m.id_media == id_media) = some media)
    (hmem : db.members.find? (fun m => m.id_member == id_member) ≠ none)
    (hrole : db.roles.find? (fun r => r.id_role == rid) = some role)
    (hact : role.id_activity ≠ media.id_activity) :
    MediaService.create_media_appearance db id_media id_member id_role ctx ord notes
      = (.error "Role does not belong to the same activity as the media item", db) := by
  subst hrid
  unfold MediaService.create_media_appearance
  rw [hmedia]
  cases hm : db.members.find? (fun m => m.id_member == id_member) with
  | none => exact absurd hm hmem
  | some mem =>
    simp only [if_neg hne, hrole, if_pos hact]

/-- C7 (code bug): `create_media_appearance` can never persist an appearance
row.  Every call leaves the store unchanged and returns an error: the
validation failures named by the claim (missing media item, missing member,
missing *non-zero* role, cross-activity role) raise `ValueError` as claimed
— the cross-activity case with its exact message — but once validation
passes, whether legitimately (no role, or a role of the media item's own
activity) or through the `if id_role:` truthiness bypass for a supplied role
id of `0`, the flushed INSERT violates the schema's NOT NULL
`media_appearance.id_activity` column, which the source never assigns, and
raises `IntegrityError` instead of creating the row. -/
theorem C7_appearance_never_persisted (db : DB) (id_media : Nat) (id_member : String)
    (id_role : Option Nat) (ctx : Option String) (ord : Int) (notes : Option String) :
    (MediaService.create_media_appearance db id_media id_member id_role ctx ord notes).2
      = db ∧
    (∃ e, (MediaService.create_media_appearance db id_media id_member id_role ctx ord
        notes).1 = .error e) ∧
    (∀ media, db.mediaItems.find? (fun m => m.id_media == id_media) = some media →
      db.members.find? (fun m => m.id_member == id_member) ≠ none →
      (id_role = none ∨ id_role = some 0 ∨
        ∃ rid role, id_role = some rid ∧
          db.roles.find? (fun r => r.id_role == rid) = some role ∧
          role.id_activity = media.id_activity) →
      MediaService.create_media_appearance db id_media id_member id_role ctx ord notes
        = (.error
            "IntegrityError: NOT NULL constraint failed: media_appearance.id_activity",
           db)) ∧
    (∀ rid role media, id_role = some rid → rid ≠ 0 →
      db.mediaItems.find? (fun m => m.id_media == id_media) = some media →
      db.members.find? (fun m => m.id_member == id_member) ≠ none →
      db.roles.find? (fun r => r.id_role == rid) = some role →
      role.id_activity ≠ media.id_activity →
      MediaService.create_media_appearance db id_media id_member id_role ctx ord notes
        = (.error "Role does not belong to the same activity as the media item", db)) := by
  obtain ⟨e, he⟩ := create_media_appearance_no_row db id_media id_member id_role ctx
    ord notes
  refine ⟨by rw [he], ⟨e, by rw [he]⟩, ?_, ?_⟩
  · intro media hmedia hmem hrole
    exact create_media_appearance_flush_fails db id_media id_member id_role ctx ord
      notes media hmedia hmem hrole
  · intro rid role media hrid hne hmedia hmem hfind hact
    exact create_media_appearance_cross_activity db id_media id_member id_role ctx ord
      notes rid role media hrid hne hmedia hmem hfind hact

/-- C7 (witness): the theorem at concrete inputs — with MediaItem 1 (activity
`act1`) and Member `m1` present, supplying the role id `0` bypasses the role
validation (Python truthiness) and the call ends in the NOT NULL
`IntegrityError` with the store untouched; no appearance exists afterwards. -/
theorem C7_appearance_never_persisted_witness :
    (({ emptyDB with
        members := [⟨"m1", some "A", some "B", none, some 1, none⟩]
        mediaItems := [⟨1, "act1", "f.jpg", "foto", none, none, none, none, none, 0⟩] } :
          DB).mediaItems.find? (fun m => m.id_media == 1)
        = some ⟨1, "act1", "f.jpg", "foto", none, none, none, none, none, 0⟩ ∧
     ({ emptyDB with
        members := [⟨"m1", some "A", some "B", none, some 1, none⟩]
        mediaItems := [⟨1, "act1", "f.jpg", "foto", none, none, none, none, none, 0⟩] } :
          DB).members.find? (fun m => m.id_member == "m1") ≠ none ∧
     ((some 0 : Option Nat) = none ∨ (some 0 : Option Nat) = some 0 ∨
       ∃ rid role, (some 0 : Option Nat) = some rid ∧
         ({ emptyDB with
            members := [⟨"m1", some "A", some "B", none, some 1, none⟩]
            mediaItems := [⟨1, "act1", "f.jpg", "foto", none, none, none, none, none, 0⟩] } :
              DB).roles.find? (fun r => r.id_role == rid) = some role ∧
         role.id_activity =
           (⟨1, "act1", "f.jpg", "foto", none, none, none, none, none, 0⟩ :
             MediaItem).id_activity)) ∧
    MediaService.create_media_appearance
      { emptyDB with
        members := [⟨"m1", some "A", some "B", none, some 1, none⟩]
        mediaItems := [⟨1, "act1", "f.jpg", "foto", none, none, none, none, none, 0⟩] }
      1 "m1" (some 0) none 0 none
      = (.error
          "IntegrityError: NOT NULL constraint failed: media_appearance.id_activity",
         { emptyDB with
           members := [⟨"m1", some "A", some "B", none, some 1, none⟩]
           mediaItems := [⟨1, "act1", "f.jpg", "foto", none, none, none, none, none, 0⟩] }) :=
  ⟨⟨by decide, by decide, Or.inr (Or.inl rfl)⟩,
   (C7_appearance_never_persisted
       { emptyDB with
         members := [⟨"m1", some "A", some "B", none, some 1, none⟩]
         mediaItems := [⟨1, "act1", "f.jpg", "foto", none, none, none, none, none, 0⟩] }
       1 "m1" (some 0) none 0 none).2.2.1
     ⟨1, "act1", "f.jpg", "foto", none, none, none, none, none, 0⟩
     (by decide) (by decide) (Or.inr (Or.inl rfl))⟩

end KNA
